import Mathlib

/-!
Node CPU-profiling plugin (`src/plugins/node/prof/nodeprofplugin.cpp`)

A shallow embedding of the plugin and a verification of its specification.

Modelling conventions.

* C strings and `std::string` values are `String`s, one `Char` per byte.
* `std::stringstream &result` is the `String` written so far; `<<` appends.
* `int` values (`id`, `parentId`, `nextid`, the line number) are `Int`. Signed overflow is
  undefined behaviour in C++, so the model has no wrap-around for them: every statement about
  ids describes the run while the counter stays below `2 ^ 31`.
* Unsigned values (`uint32`, `size_t`, `unsigned long long`) are `Nat`; where the source computes
  with them (`found + 1`, the cast of `strlen`), the reduction modulo `2 ^ w` is explicit.
* A pointer that may be `NULL` is an `Option`.
* `ExtractV8String` tests the result of `new char[...]` against `NULL`. The definitions of
  the serializer keep that path as written (`V8String.allocFails`); the standard
  `operator new[]` never returns `NULL` but throws `std::bad_alloc`, and the definitions in the
  namespace `Throwing` give the serializer and the tick with that allocator.
* The calls the plugin makes into the agent, V8 and libuv are recorded, oldest first, in
  `State.trace`. The V8 API is the one selected by `NODE_VERSION_AT_LEAST(0, 11, 0)`; with the
  older static API `StartTheProfiler`/`StopTheProfiler` behave as with an isolate and a profiler
  present.
* What the outside world answers (the clock, whether an isolate and a profiler exist, the profile
  that `StopProfiling` returns) is the `Env` given to each handler.
-/

namespace NodeProf

/-! ## Library semantics used by the source -/

/-- Text written by `operator<<(int)`: decimal, with a leading `-` when negative. -/
def showInt (i : Int) : String := toString i

/-- Text written by `operator<<(unsigned long long)`: decimal. -/
def showUnsigned (n : Nat) : String := toString n

/-- Removes the zeros that end a digit sequence. -/
def stripTrailingZeros (ds : List Char) : List Char :=
  (ds.reverse.dropWhile (fun d => d == '0')).reverse

/-- Text written by `operator<<(double)` on a stream with default flags, for a `double` holding
the non-negative integer `c` exactly (every `c < 2 ^ 53`, hence every `unsigned int`). The stream
formats as `printf("%g")` with precision 6: with `X` the decimal exponent of the value rounded to
six significant digits, style `%f` without trailing zeros when `X < 6`, otherwise style `%e`
with at most five fraction digits, trailing zeros (and a bare point) removed, and an exponent of at
least two digits. Rounding is to nearest, ties to even. -/
def showDouble (c : Nat) : String :=
  if c = 0 then "0"
  else
    let x := (Nat.repr c).length - 1
    if x < 6 then Nat.repr c
    else
      let unit := 10 ^ (x - 5)
      let q := c / unit
      let r := c % unit
      let m := if unit < 2 * r ∨ (2 * r = unit ∧ q % 2 = 1) then q + 1 else q
      let m1 := if m = 10 ^ 6 then 10 ^ 5 else m
      let x1 := if m = 10 ^ 6 then x + 1 else x
      let digits := (Nat.repr m1).data
      let frac := stripTrailingZeros digits.tail
      let mantissa := String.mk (digits.head! :: (if frac = [] then [] else '.' :: frac))
      mantissa ++ "e+" ++ (if x1 < 10 then "0" else "") ++ Nat.repr x1

/-- Value of `std::string::npos`: `size_t(-1)` for a 64-bit `size_t`. -/
def npos : Nat := 2 ^ 64 - 1

/-- Arithmetic on `size_t`: `a + b` modulo `2 ^ 64`. -/
def sizeAdd (a b : Nat) : Nat := (a + b) % 2 ^ 64

/-- Semantics of `std::string::find(char)`: the index of the first occurrence, `npos` if none. -/
def find (s : String) (c : Char) : Nat :=
  if s.data.indexOf c < s.data.length then s.data.indexOf c else npos

/-- Semantics of `std::string::substr(pos, len)`: the characters from `pos`, at most `len` of them; it
throws `std::out_of_range` (here `none`) when `pos` is past the end. `substr(pos)` is
`substr pos npos`. -/
def substr (s : String) (pos len : Nat) : Option String :=
  if s.data.length < pos then none else some (String.mk ((s.data.drop pos).take len))

/-! ## V8 data -/

/-- A `Handle<String>` as `ExtractV8String` sees it: the bytes `WriteUtf8` produces, and whether
the buffer allocation for them fails (yields `NULL` with an allocator that reports failure so,
throws with the standard one). -/
structure V8String where
  utf8 : String
  allocFails : Bool
deriving DecidableEq, Repr

/-- A `v8::CpuProfileNode`: the getters the plugin calls, and the children in the order
`GetChild(0)`, `GetChild(1)`, ... reports them. `GetHitCount` is an `unsigned int`. -/
inductive CpuProfileNode where
  | mk (GetFunctionName : V8String) (GetScriptResourceName : V8String) (GetLineNumber : Int)
      (GetHitCount : Nat) (children : List CpuProfileNode)

/-- A `v8::CpuProfile`. -/
structure CpuProfile where
  GetTopDownRoot : CpuProfileNode

namespace CpuProfileNode

/-- Getter `GetFunctionName()`. -/
def GetFunctionName : CpuProfileNode → V8String
  | mk f _ _ _ _ => f

/-- Getter `GetScriptResourceName()`. -/
def GetScriptResourceName : CpuProfileNode → V8String
  | mk _ s _ _ _ => s

/-- Getter `GetLineNumber()`. -/
def GetLineNumber : CpuProfileNode → Int
  | mk _ _ l _ _ => l

/-- Getter `GetHitCount()`. -/
def GetHitCount : CpuProfileNode → Nat
  | mk _ _ _ h _ => h

/-- Children list: `GetChild(i)` for `i` from 0 below `GetChildrenCount()`. -/
def children : CpuProfileNode → List CpuProfileNode
  | mk _ _ _ _ cs => cs

end CpuProfileNode

/-! ## The serializer -/

/-- Source `NewCString`: a fresh copy of the text, never `NULL`. -/
def NewCString (s : String) : Option String := some s

/-- Source `ExtractV8String`: `false` (here `none`) when the allocation gave `NULL`, otherwise the
bytes written by `WriteUtf8`. The `NULL` case needs an `operator new[]` that returns `NULL`; with
the standard one see `Throwing.ExtractV8String`. -/
def ExtractV8String (v8string : V8String) : Option String :=
  if v8string.allocFails then none else some v8string.utf8

/-- Source `ConstructNodeData`: appends the node's record to `result`; returns early, appending
nothing, when either name cannot be extracted. -/
def ConstructNodeData (node : CpuProfileNode) (id parentId : Int) (result : String) : String :=
  let line := node.GetLineNumber
  let selfSamples := node.GetHitCount
  match ExtractV8String node.GetFunctionName with
  | none => result
  | some function =>
    match ExtractV8String node.GetScriptResourceName with
    | none => result
    | some script =>
      let result := result ++ "NodeProfData,Node," ++ showInt id ++ "," ++ showInt parentId ++ ","
      result ++ script ++ "," ++ function ++ "," ++ showInt line ++ "," ++ showDouble selfSamples
        ++ "\n"

/-- Type of the callback handed to `visit` (`visit_callback`). -/
abbrev visit_callback := CpuProfileNode → Int → Int → String → String

mutual
/-- Source `visit`: takes the next id from the static counter `nextid`, calls the callback on
the current node, then visits the children in order with the current id as their parent id.
Returns the counter and the stream afterwards. -/
def visit (cb : visit_callback) (current : CpuProfileNode) (parentId : Int)
    (nextid : Int) (result : String) : Int × String :=
  match current with
  | .mk f s l h cs =>
    let id := nextid
    let nextid := nextid + 1
    let result := cb (.mk f s l h cs) id parentId result
    visitChildren cb cs id nextid result
/-- Loop `for (i = 0; i < children; i++) visit(current->GetChild(i), cb, id, result)`. -/
def visitChildren (cb : visit_callback) (cs : List CpuProfileNode) (id : Int)
    (nextid : Int) (result : String) : Int × String :=
  match cs with
  | [] => (nextid, result)
  | c :: rest =>
    let (nextid, result) := visit cb c id nextid result
    visitChildren cb rest id nextid result
end

/-- Source `ConstructData`, with the clock reading `realTime` and the static counter `nextid` of
`visit` made explicit: returns the blob (a pointer, never `NULL`) and the counter afterwards. -/
def ConstructData (profile : CpuProfile) (realTime : Nat) (nextid : Int) : Option String × Int :=
  let topRoot := profile.GetTopDownRoot
  let result := ""
  let result := result ++ "NodeProfData,Start," ++ showUnsigned realTime ++ "\n"
  let (nextid, result) := visit ConstructNodeData topRoot 0 nextid result
  let result := result ++ "NodeProfData,End" ++ "\n"
  (NewCString result, nextid)

/-! ## Pre-order listing of a call tree (specification side) -/

mutual
/-- Number of nodes of a call tree. -/
def nodeCount : CpuProfileNode → Nat
  | .mk _ _ _ _ cs => 1 + nodeCountList cs
/-- Number of nodes of a forest. -/
def nodeCountList : List CpuProfileNode → Nat
  | [] => 0
  | c :: rest => nodeCount c + nodeCountList rest
end

mutual
/-- Standard pre-order: a node, then the pre-order of each child's subtree, children taken in the
order the tree reports them. -/
def preorder : CpuProfileNode → List CpuProfileNode
  | .mk f s l h cs => .mk f s l h cs :: preorderList cs
/-- Pre-order of a forest: whole subtrees one after the other. -/
def preorderList : List CpuProfileNode → List CpuProfileNode
  | [] => []
  | c :: rest => preorder c ++ preorderList rest
end

/-- Node found by following child indices from a node, if there is one. -/
def nodeAt : CpuProfileNode → List Nat → Option CpuProfileNode
  | t, [] => some t
  | t, i :: rest =>
    match t.children[i]? with
    | none => none
    | some c => nodeAt c rest

/-- One invocation of the callback by `visit`: the position of the node in the tree (the child
indices leading to it from the root), the node, and the ids handed over. -/
structure Call where
  path : List Nat
  node : CpuProfileNode
  id : Int
  parentId : Int

mutual
/-- Callback invocations expected from `visit` on the subtree at position `path`, when it is
entered with parent id `parentId` and the counter at `nextid`: ids are given out in pre-order. -/
def visitTrace : CpuProfileNode → List Nat → Int → Int → List Call
  | .mk f s l h cs, path, parentId, nextid =>
    ⟨path, .mk f s l h cs, nextid, parentId⟩ :: visitTraceList cs path 0 nextid (nextid + 1)
/-- Callback invocations for the children from index `i` on of the node at `path` with id `id`. -/
def visitTraceList : List CpuProfileNode → List Nat → Nat → Int → Int → List Call
  | [], _, _, _, _ => []
  | c :: rest, path, i, id, nextid =>
    visitTrace c (path ++ [i]) id nextid
      ++ visitTraceList rest path (i + 1) id (nextid + nodeCount c)
end

/-- Applies the callback to the stream for each invocation of a trace, in order. -/
def replay (cb : visit_callback) (calls : List Call) (result : String) : String :=
  calls.foldl (fun r c => cb c.node c.id c.parentId r) result

/-- The record line of the wire format for one invocation, in the words of the specification:
`NodeProfData,Node,<id>,<parentId>,<scriptName>,<functionName>,<lineNumber>,<selfSampleCount>`
and a newline. -/
def recordLine (c : Call) : String :=
  String.intercalate ","
    ["NodeProfData", "Node", showInt c.id, showInt c.parentId,
     c.node.GetScriptResourceName.utf8, c.node.GetFunctionName.utf8,
     showInt c.node.GetLineNumber, showDouble c.node.GetHitCount] ++ "\n"

/-- Both names of the node can be extracted. -/
def namesExtract (n : CpuProfileNode) : Prop :=
  n.GetFunctionName.allocFails = false ∧ n.GetScriptResourceName.allocFails = false

/-- Consecutive integers `k, k + 1, ..., k + n - 1`. -/
def idsFrom (k : Int) (n : Nat) : List Int :=
  (List.range n).map (fun (i : Nat) => k + (i : Int))

/-! ## The plugin state and the outside world -/

/-- Logging levels the plugin uses. -/
inductive loggingLevel where
  | fine
  | debug
deriving DecidableEq, Repr

/-- The record handed to `agentPushData`. -/
structure monitordata where
  provID : Nat
  sourceID : Nat
  size : Nat
  data : String
  persistent : Bool
deriving DecidableEq, Repr

/-- The two callbacks a `uv_async_t` is initialised with. -/
inductive AsyncCallback where
  | enableOnV8Thread
  | disableOnV8Thread
deriving DecidableEq, Repr

/-- The two kinds of libuv handle the plugin closes. -/
inductive Handle where
  | timer
  | async
deriving DecidableEq, Repr

/-- A call made by the plugin into the agent API, V8 or libuv. -/
inductive Event where
  | logMessage (lev : loggingLevel) (message : String)
  | getProperty (key : String)
  | agentSendMessage (sourceId : String) (size : Nat) (data : String)
  | agentPushData (data : monitordata)
  | StartProfiling (title : String) (recordSamples : Bool)
  | StopProfiling (title : String)
  | Delete
  | uv_timer_init
  | uv_unref
  | uv_timer_start (timeout : Nat) (repeatMs : Nat)
  | uv_timer_stop
  | uv_close (handle : Handle)
  | uv_async_init (cb : AsyncCallback)
  | uv_async_send
deriving DecidableEq, Repr

/-- Answers of the outside world during one handler run. -/
structure Env where
  /-- Value of `GetRealTime()`. -/
  realTime : Nat
  /-- Whether `v8::Isolate::GetCurrent()` is non-`NULL`. -/
  isolate : Bool
  /-- Whether `isolate->GetCpuProfiler()` is non-`NULL`. -/
  cpuProfiler : Bool
  /-- What `cpu->StopProfiling(...)` returns. -/
  stopped : Option CpuProfile

/-- The variables of `namespace plugin`, the static counter of `visit`, the state of the timer
handle and of the V8 profiler as driven by the plugin, and the calls made so far. -/
structure State where
  provid : Nat
  enabled : Bool
  profiling : Bool
  /-- Static local `nextid` of `visit`. -/
  nextid : Int
  /-- Timeout and repeat period (`some`) while `plugin::timer` is armed. -/
  timerArmed : Option (Nat × Nat)
  /-- Whether `uv_close` was called on `plugin::timer`. -/
  timerClosed : Bool
  /-- Whether a profiling session titled `NodeProfPlugin` is running. -/
  sessionActive : Bool
  trace : List Event
deriving DecidableEq

/-- State of a process before the plugin is registered. -/
def initialState : State :=
  { provid := 0, enabled := false, profiling := false, nextid := 1, timerArmed := none,
    timerClosed := false, sessionActive := false, trace := [] }

/-- Source constant `PROFILING_INTERVAL`. -/
def PROFILING_INTERVAL : Nat := 5000

/-- Source constant `DEFAULT_CAPACITY`. -/
def DEFAULT_CAPACITY : Nat := 10240

/-- Records one call. -/
def State.emit (s : State) (e : Event) : State :=
  { s with trace := s.trace ++ [e] }

/-- Library call `uv_timer_start(plugin::timer, OnGatherDataOnV8Thread, timeout, repeat)`. -/
def uv_timer_start (timeout repeatMs : Nat) (s : State) : State :=
  { s.emit (.uv_timer_start timeout repeatMs) with timerArmed := some (timeout, repeatMs) }

/-- Library call `uv_timer_stop(plugin::timer)`. -/
def uv_timer_stop (s : State) : State :=
  { s.emit .uv_timer_stop with timerArmed := none }

/-- Library call `uv_close(handle, cleanupHandle)`; closing the timer also disarms it. -/
def uv_close (handle : Handle) (s : State) : State :=
  match handle with
  | .timer => { s.emit (.uv_close .timer) with timerArmed := none, timerClosed := true }
  | .async => s.emit (.uv_close .async)

/-! ## Profiler session -/

/-- Source `GetIsolate`: logs when there is no current isolate. -/
def GetIsolate (env : Env) (s : State) : Bool × State :=
  if env.isolate then (true, s)
  else (false, s.emit (.logMessage .debug "[profiling_node] No V8 Isolate found"))

/-- Source `GetCpuProfiler`: logs when the isolate has no profiler. -/
def GetCpuProfiler (env : Env) (s : State) : Bool × State :=
  if env.cpuProfiler then (true, s)
  else (false, s.emit (.logMessage .debug "[profiling_node] No CpuProfiler found"))

/-- Source `StartTheProfiler`. -/
def StartTheProfiler (env : Env) (s : State) : State :=
  let isolate := GetIsolate env s
  if isolate.1 = false then isolate.2
  else
    let cpu := GetCpuProfiler env isolate.2
    if cpu.1 = false then cpu.2
    else { cpu.2.emit (.StartProfiling "NodeProfPlugin" false) with sessionActive := true }

/-- Source `StopTheProfiler`: the profile returned, `none` for `NULL`. -/
def StopTheProfiler (env : Env) (s : State) : Option CpuProfile × State :=
  let isolate := GetIsolate env s
  if isolate.1 = false then (none, isolate.2)
  else
    let cpu := GetCpuProfiler env isolate.2
    if cpu.1 = false then (none, cpu.2)
    else (env.stopped, { cpu.2.emit (.StopProfiling "NodeProfPlugin") with sessionActive := false })

/-- Source `ReleaseProfile`. -/
def ReleaseProfile (profile : Option CpuProfile) (s : State) : State :=
  match profile with
  | some _ => s.emit .Delete
  | none => s

/-! ## Timer tick -/

/-- Source `OnGatherDataOnV8Thread`, the timer callback. -/
def OnGatherDataOnV8Thread (env : Env) (s : State) : State :=
  if s.enabled = false then s
  else
    let stop := StopTheProfiler env s
    match stop.1 with
    | some profile =>
      let constructed := ConstructData profile env.realTime stop.2.nextid
      let s := { stop.2 with nextid := constructed.2 }
      let s := ReleaseProfile (some profile) s
      let s := StartTheProfiler env s
      match constructed.1 with
      | some serialisedProfile =>
        s.emit (.agentPushData
          { persistent := false, provID := s.provid, sourceID := 0,
            size := serialisedProfile.length % 2 ^ 32, data := serialisedProfile })
      | none =>
        s.emit (.logMessage .debug "[profiling_node] Failed to serialise method profile")
    | none =>
      let s := stop.2.emit (.logMessage .debug "[profiling_node] No method profile found")
      StartTheProfiler env s

/-! ## Toggle -/

/-- The descriptor returned by registration (`pushsource` with its header). -/
structure pushsource where
  name : String
  description : String
  sourceID : Nat
  capacity : Nat
deriving DecidableEq, Repr

/-- Source `createPushSource`. -/
def createPushSource (srcid : Nat) (name : String) : pushsource :=
  { name := name, description := "Description for " ++ name, sourceID := srcid,
    capacity := DEFAULT_CAPACITY }

/-- Source `publishEnabled`. -/
def publishEnabled (s : State) : State :=
  let sourceName := "profiling_node"
  let msg := sourceName ++ "_subsystem="
  let msg := if s.enabled then msg ++ "on" else msg ++ "off"
  let logMsg := "[profiling_node] Sending config message [" ++ msg ++ "]"
  let s := s.emit (.logMessage .debug logMsg)
  s.emit (.agentSendMessage ("configuration/" ++ sourceName) msg.length msg)

/-- Source `enableOnV8Thread`, the callback of an enable request. -/
def enableOnV8Thread (env : Env) (s : State) : State :=
  if s.enabled then s
  else
    let s := { s with enabled := true }
    let s := s.emit (.logMessage .debug "[profiling_node] Publishing config")
    let s := publishEnabled s
    let s := StartTheProfiler env s
    let s := uv_timer_start PROFILING_INTERVAL PROFILING_INTERVAL s
    uv_close .async s

/-- Source `disableOnV8Thread`, the callback of a disable request. -/
def disableOnV8Thread (env : Env) (s : State) : State :=
  if s.enabled = false then s
  else
    let s := { s with enabled := false }
    let s := s.emit (.logMessage .debug "[profiling_node] Publishing config")
    let s := publishEnabled s
    let s := uv_timer_stop s
    let stop := StopTheProfiler env s
    let s := ReleaseProfile stop.1 stop.2
    uv_close .async s

/-- Source `setEnabled`: the calls it makes, on whatever thread it runs. It touches no plugin
variable; the callback it names runs later on the V8 thread. -/
def setEnabled (value : Bool) : List Event :=
  if value then
    [.logMessage .fine "[profiling_node] Enabling", .uv_async_init .enableOnV8Thread,
     .uv_async_send]
  else
    [.logMessage .fine "[profiling_node] Disabling", .uv_async_init .disableOnV8Thread,
     .uv_async_send]

/-- The callback the loop runs for an initialised and sent `uv_async_t`. -/
def AsyncCallback.run (cb : AsyncCallback) (env : Env) (s : State) : State :=
  match cb with
  | .enableOnV8Thread => NodeProf.enableOnV8Thread env s
  | .disableOnV8Thread => NodeProf.disableOnV8Thread env s

/-! ## Plugin entry points -/

/-- Source `ibmras_monitoring_registerPushSource`; `enabledProp` is what `getProperty` returns
for `com.ibm.diagnostics.healthcenter.data.profiling`. -/
def ibmras_monitoring_registerPushSource (enabledProp : String) (provID : Nat) (s : State) :
    pushsource × State :=
  let s := s.emit (.getProperty "com.ibm.diagnostics.healthcenter.data.profiling")
  let s := { s with enabled := (enabledProp == "on") }
  let s := s.emit (.logMessage .debug "[profiling_node] Registering push sources")
  let head := createPushSource 0 "profiling_node"
  let s := { s with provid := provID }
  (head, s)

/-- Source `ibmras_monitoring_plugin_init`. -/
def ibmras_monitoring_plugin_init (_properties : String) (s : State) : Int × State :=
  (0, s)

/-- Source `ibmras_monitoring_plugin_start`. -/
def ibmras_monitoring_plugin_start (env : Env) (s : State) : Int × State :=
  let s :=
    if s.enabled then s.emit (.logMessage .fine "[profiling_node] Starting enabled")
    else s.emit (.logMessage .fine "[profiling_node] Starting disabled")
  let s := s.emit (.logMessage .debug "[profiling_node] Publishing config")
  let s := publishEnabled s
  let s := { s.emit .uv_timer_init with timerArmed := none, timerClosed := false }
  let s := s.emit .uv_unref
  let s :=
    if s.enabled then
      let s := s.emit (.logMessage .debug "[profiling_node] Start profiling")
      let s := StartTheProfiler env s
      let s := s.emit (.logMessage .debug "[profiling_node] Starting timer")
      uv_timer_start PROFILING_INTERVAL PROFILING_INTERVAL s
    else s
  (0, s)

/-- Source `ibmras_monitoring_plugin_stop`. -/
def ibmras_monitoring_plugin_stop (env : Env) (s : State) : Int × State :=
  let s := s.emit (.logMessage .fine "[profiling_node] Stopping")
  let s :=
    if s.enabled then
      let s := { s with enabled := false }
      let s := uv_timer_stop s
      let s := uv_close .timer s
      let stop := StopTheProfiler env s
      ReleaseProfile stop.1 stop.2
    else s
  (0, s)

/-- Source `ibmras_monitoring_receiveMessage`: the calls it makes; `none` when a `substr` throws.
`data` holds the bytes behind the pointer, of which the first `size` form the message. -/
def ibmras_monitoring_receiveMessage (id : String) (size : Nat) (data : String) :
    Option (List Event) :=
  let idstring := id
  if idstring = "profiling_node" then
    let message := String.mk (data.data.take size)
    let found := find message ','
    match substr message 0 found with
    | none => none
    | some command =>
      match substr message (sizeAdd found 1) npos with
      | none => none
      | some rest =>
        if rest = "profiling_node_subsystem" then
          let enabled := decide (command = "on")
          some (setEnabled enabled)
        else some []
  else some []

/-- Source `ibmras_monitoring_getVersion`. -/
def ibmras_monitoring_getVersion : String := "2.0"


/-! ## Observing the calls (specification side) -/

/-- The calls recorded between two states of one run. -/
def eventsSince (before after : State) : List Event :=
  after.trace.drop before.trace.length

namespace Event

/-- An outbound message through `agentSendMessage`. -/
def isSendMessage : Event → Bool
  | .agentSendMessage _ _ _ => true
  | _ => false

/-- A data record pushed to the sink. -/
def isPushData : Event → Bool
  | .agentPushData _ => true
  | _ => false

/-- A call of V8's `StartProfiling`. -/
def isStartProfiling : Event → Bool
  | .StartProfiling _ _ => true
  | _ => false

/-- A call of V8's `StopProfiling`. -/
def isStopProfiling : Event → Bool
  | .StopProfiling _ => true
  | _ => false

/-- A call releasing a profile. -/
def isDelete : Event → Bool
  | .Delete => true
  | _ => false

/-- A call arming the timer. -/
def isTimerStart : Event → Bool
  | .uv_timer_start _ _ => true
  | _ => false

/-- A call disarming the timer. -/
def isTimerStop : Event → Bool
  | .uv_timer_stop => true
  | _ => false

end Event

/-! ## Concrete inputs -/

/-- A V8 string whose extraction succeeds. -/
def text (s : String) : V8String := { utf8 := s, allocFails := false }

/-- The child of the specification's example tree: `a.js`, `foo`, line 12, 3 self samples. -/
def exampleChild : CpuProfileNode := .mk (text "foo") (text "a.js") 12 3 []

/-- The root of the specification's example tree: `main.js`, `(root)`, line 0, 0 self samples. -/
def exampleRoot : CpuProfileNode := .mk (text "(root)") (text "main.js") 0 0 [exampleChild]

/-- The specification's two-node example profile. -/
def exampleProfile : CpuProfile := { GetTopDownRoot := exampleRoot }

/-- An environment with an isolate and a profiler whose next stop returns `profile`. -/
def envReturning (realTime : Nat) (profile : Option CpuProfile) : Env :=
  { realTime := realTime, isolate := true, cpuProfiler := true, stopped := profile }

/-- The state after registration with the profiling property `on` and provider id 7, followed by
`ibmras_monitoring_plugin_start`. -/
def startedEnabled : State :=
  (ibmras_monitoring_plugin_start (envReturning 0 none)
    (ibmras_monitoring_registerPushSource "on" 7 initialState).2).2

/-- The state after registration with the profiling property `off` and provider id 7, followed by
`ibmras_monitoring_plugin_start`. -/
def startedDisabled : State :=
  (ibmras_monitoring_plugin_start (envReturning 0 none)
    (ibmras_monitoring_registerPushSource "off" 7 initialState).2).2

/-! ## Runs of the plugin (specification side) -/

/-- Whether the environment offers an isolate with a profiler (the profiler capability). -/
def Env.capable (env : Env) : Bool := env.isolate && env.cpuProfiler

/-- One invocation of a callback on the V8 thread: the enable handler, the disable handler or
the timer tick, with what the outside world answers during it. -/
inductive Handler where
  | enable (env : Env)
  | disable (env : Env)
  | tick (env : Env)

/-- The environment of an invocation. -/
def Handler.env : Handler → Env
  | .enable env => env
  | .disable env => env
  | .tick env => env

/-- The effect of an invocation on the state. -/
def Handler.run : Handler → State → State
  | .enable env, s => enableOnV8Thread env s
  | .disable env, s => disableOnV8Thread env s
  | .tick env, s => OnGatherDataOnV8Thread env s

/-- An invocation after start-up: a handler, or `ibmras_monitoring_plugin_stop`. -/
inductive Op where
  | handler (h : Handler)
  | stop (env : Env)

/-- The environment of an invocation. -/
def Op.env : Op → Env
  | .handler h => h.env
  | .stop env => env

/-- The effect of an invocation on the state. -/
def Op.run : Op → State → State
  | .handler h, s => h.run s
  | .stop env, s => (ibmras_monitoring_plugin_stop env s).2

/-- The state after a sequence of handler invocations, first to last. -/
def runHandlers (hs : List Handler) (s : State) : State :=
  hs.foldl (fun s h => h.run s) s

/-- The state after a sequence of invocations, first to last. -/
def runOps (ops : List Op) (s : State) : State :=
  ops.foldl (fun s op => op.run s) s

/-- The state after registration with property value `enabledProp` and provider id `provID`,
followed by `ibmras_monitoring_plugin_start`. -/
def started (enabledProp : String) (provID : Nat) (env : Env) (s : State) : State :=
  (ibmras_monitoring_plugin_start env
    (ibmras_monitoring_registerPushSource enabledProp provID s).2).2

/-- Reads a list of calls from left to right, keeping whether a profiling session is running:
`StartProfiling` while one is running is an error (`none`), `StopProfiling` ends the session. -/
def profilerScan : Bool → List Event → Option Bool
  | active, [] => some active
  | active, e :: rest =>
    if e.isStartProfiling then
      if active then none else profilerScan true rest
    else if e.isStopProfiling then profilerScan false rest
    else profilerScan active rest

/-- No two `StartProfiling` calls without a `StopProfiling` call between them. -/
def NoDoubleStart (l : List Event) : Prop :=
  ∀ (i j : Nat) (a b : Event), i < j → l[i]? = some a → l[j]? = some b →
    a.isStartProfiling = true → b.isStartProfiling = true →
    ∃ (k : Nat) (c : Event), i < k ∧ k < j ∧ l[k]? = some c ∧ c.isStopProfiling = true

/-- The value of the static counter of `visit` after serializing the given profiles, each at
its own clock reading, one after the other. -/
def counterAfter (passes : List (CpuProfile × Nat)) (nextid : Int) : Int :=
  passes.foldl (fun k p => (ConstructData p.1 p.2 k).2) nextid

/-- Total number of nodes of the given profiles. -/
def nodesVisited (passes : List (CpuProfile × Nat)) : Nat :=
  (passes.map (fun p => nodeCount p.1.GetTopDownRoot)).sum

/-- The ids a pass over `profile` hands out when the given passes came before it in the
process, in the order of the visit. -/
def passIds (earlier : List (CpuProfile × Nat)) (profile : CpuProfile) : List Int :=
  (visitTrace profile.GetTopDownRoot [] 0 (counterAfter earlier initialState.nextid)).map Call.id

/-- A node with a million self samples. -/
def millionNode : CpuProfileNode := .mk (text "hot") (text "a.js") 12 1000000 []

/-- A run after start-up: enable, tick with a profile, disable, stop, enable, tick without a
profile, stop, all with an isolate and a profiler. -/
def exampleOps : List Op :=
  [.handler (.enable (envReturning 1 none)),
   .handler (.tick (envReturning 2 (some exampleProfile))),
   .handler (.disable (envReturning 3 (some exampleProfile))),
   .stop (envReturning 4 none),
   .handler (.enable (envReturning 5 none)),
   .handler (.tick (envReturning 6 none)),
   .stop (envReturning 7 (some exampleProfile))]

/-! ## The serializer and the tick with the standard allocator -/

/-- The exception thrown by a failed `new char[...]` (`std::bad_alloc`). -/
inductive Exception where
  | bad_alloc
deriving DecidableEq, Repr

namespace Throwing

/-- Source `ExtractV8String` with the standard `operator new[]`: a failed allocation throws
`std::bad_alloc` (here `.error`); otherwise the pointer is not `NULL`, the `return false` is not
taken, and the function returns `true` with the bytes written by `WriteUtf8` (here `some`). -/
def ExtractV8String (v8string : V8String) : Except Exception (Option String) :=
  if v8string.allocFails then .error .bad_alloc else .ok (some v8string.utf8)

/-- Source `ConstructNodeData`, an exception of `ExtractV8String` passing through. -/
def ConstructNodeData (node : CpuProfileNode) (id parentId : Int) (result : String) :
    Except Exception String :=
  let line := node.GetLineNumber
  let selfSamples := node.GetHitCount
  match ExtractV8String node.GetFunctionName with
  | .error e => .error e
  | .ok none => .ok result
  | .ok (some function) =>
    match ExtractV8String node.GetScriptResourceName with
    | .error e => .error e
    | .ok none => .ok result
    | .ok (some script) =>
      let result := result ++ "NodeProfData,Node," ++ showInt id ++ "," ++ showInt parentId ++ ","
      .ok (result ++ script ++ "," ++ function ++ "," ++ showInt line ++ ","
        ++ showDouble selfSamples ++ "\n")

/-- Type of the callback handed to `visit`, which may throw. -/
abbrev visit_callback := CpuProfileNode → Int → Int → String → Except Exception String

mutual
/-- Source `visit`, an exception of the callback or of a recursive call passing through. -/
def visit (cb : visit_callback) (current : CpuProfileNode) (parentId : Int)
    (nextid : Int) (result : String) : Except Exception (Int × String) :=
  match current with
  | .mk f s l h cs =>
    let id := nextid
    let nextid := nextid + 1
    match cb (.mk f s l h cs) id parentId result with
    | .error e => .error e
    | .ok result => visitChildren cb cs id nextid result
/-- The loop over the children in `visit`. -/
def visitChildren (cb : visit_callback) (cs : List CpuProfileNode) (id : Int)
    (nextid : Int) (result : String) : Except Exception (Int × String) :=
  match cs with
  | [] => .ok (nextid, result)
  | c :: rest =>
    match visit cb c id nextid result with
    | .error e => .error e
    | .ok next => visitChildren cb rest id next.1 next.2
end

/-- Source `ConstructData`, an exception of `visit` passing through: then no blob is
returned. -/
def ConstructData (profile : CpuProfile) (realTime : Nat) (nextid : Int) :
    Except Exception (Option String × Int) :=
  let topRoot := profile.GetTopDownRoot
  let result := ""
  let result := result ++ "NodeProfData,Start," ++ showUnsigned realTime ++ "\n"
  match visit ConstructNodeData topRoot 0 nextid result with
  | .error e => .error e
  | .ok visited =>
    let result := visited.2 ++ "NodeProfData,End" ++ "\n"
    .ok (NewCString result, visited.1)

/-- Source `OnGatherDataOnV8Thread`: the function has no handler, so an exception of
`ConstructData` leaves the callback; the error carries the calls made up to then. -/
def OnGatherDataOnV8Thread (env : Env) (s : State) : Except (Exception × List Event) State :=
  if s.enabled = false then .ok s
  else
    let stop := StopTheProfiler env s
    match stop.1 with
    | some profile =>
      match ConstructData profile env.realTime stop.2.nextid with
      | .error e => .error (e, stop.2.trace)
      | .ok constructed =>
        let s := { stop.2 with nextid := constructed.2 }
        let s := ReleaseProfile (some profile) s
        let s := StartTheProfiler env s
        match constructed.1 with
        | some serialisedProfile =>
          .ok (s.emit (.agentPushData
            { persistent := false, provID := s.provid, sourceID := 0,
              size := serialisedProfile.length % 2 ^ 32, data := serialisedProfile }))
        | none =>
          .ok (s.emit
            (.logMessage .debug "[profiling_node] Failed to serialise method profile"))
    | none =>
      let s := stop.2.emit (.logMessage .debug "[profiling_node] No method profile found")
      .ok (StartTheProfiler env s)

end Throwing

/-- The buffer allocation for one of the two names of the node fails. -/
def allocationFails (n : CpuProfileNode) : Prop :=
  n.GetFunctionName.allocFails = true ∨ n.GetScriptResourceName.allocFails = true

/-! ## Facts about the traversal -/

mutual
theorem visit_eq_replay (cb : visit_callback) (t : CpuProfileNode) (path : List Nat)
    (parentId nextid : Int) (result : String) :
    visit cb t parentId nextid result
      = (nextid + nodeCount t, replay cb (visitTrace t path parentId nextid) result) := by
  match t with
  | .mk f s l h cs =>
    simp only [visit, visitTrace, nodeCount, replay, List.foldl_cons]
    rw [visitChildren_eq_replay cb cs path 0 nextid (nextid + 1)]
    simp only [replay]
    congr 1
    push_cast
    ring
theorem visitChildren_eq_replay (cb : visit_callback) (cs : List CpuProfileNode)
    (path : List Nat) (i : Nat) (id nextid : Int) (result : String) :
    visitChildren cb cs id nextid result
      = (nextid + nodeCountList cs, replay cb (visitTraceList cs path i id nextid) result) := by
  match cs with
  | [] => simp [visitChildren, visitTraceList, nodeCountList, replay]
  | c :: rest =>
    simp only [visitChildren, visitTraceList, nodeCountList, replay, List.foldl_append]
    rw [visit_eq_replay cb c (path ++ [i]) id nextid result]
    simp only []
    rw [visitChildren_eq_replay cb rest path (i + 1) id (nextid + nodeCount c)]
    simp only [replay]
    congr 1
    push_cast
    ring
end

mutual
theorem visitTrace_length (t : CpuProfileNode) (path : List Nat) (parentId nextid : Int) :
    (visitTrace t path parentId nextid).length = nodeCount t := by
  match t with
  | .mk f s l h cs =>
    simp only [visitTrace, nodeCount, List.length_cons]
    rw [visitTraceList_length cs path 0 nextid (nextid + 1)]
    omega
theorem visitTraceList_length (cs : List CpuProfileNode) (path : List Nat) (i : Nat)
    (id nextid : Int) :
    (visitTraceList cs path i id nextid).length = nodeCountList cs := by
  match cs with
  | [] => simp [visitTraceList, nodeCountList]
  | c :: rest =>
    simp only [visitTraceList, nodeCountList, List.length_append]
    rw [visitTrace_length c (path ++ [i]) id nextid,
      visitTraceList_length rest path (i + 1) id (nextid + nodeCount c)]
end

mutual
theorem visitTrace_nodes (t : CpuProfileNode) (path : List Nat) (parentId nextid : Int) :
    (visitTrace t path parentId nextid).map Call.node = preorder t := by
  match t with
  | .mk f s l h cs =>
    simp only [visitTrace, preorder, List.map_cons]
    rw [visitTraceList_nodes cs path 0 nextid (nextid + 1)]
theorem visitTraceList_nodes (cs : List CpuProfileNode) (path : List Nat) (i : Nat)
    (id nextid : Int) :
    (visitTraceList cs path i id nextid).map Call.node = preorderList cs := by
  match cs with
  | [] => simp [visitTraceList, preorderList]
  | c :: rest =>
    simp only [visitTraceList, preorderList, List.map_append]
    rw [visitTrace_nodes c (path ++ [i]) id nextid,
      visitTraceList_nodes rest path (i + 1) id (nextid + nodeCount c)]
end

theorem idsFrom_succ (k : Int) (n : Nat) : idsFrom k (1 + n) = k :: idsFrom (k + 1) n := by
  simp only [idsFrom, Nat.add_comm 1 n, List.range_succ_eq_map, List.map_cons, List.map_map]
  simp only [Nat.cast_zero, add_zero, List.cons.injEq, true_and]
  apply List.map_congr_left
  intro a _
  simp only [Function.comp, Nat.cast_succ]
  ring

theorem idsFrom_add (k : Int) (a b : Nat) :
    idsFrom k (a + b) = idsFrom k a ++ idsFrom (k + a) b := by
  simp only [idsFrom, List.range_add, List.map_append, List.map_map]
  congr 1
  apply List.map_congr_left
  intro x _
  simp only [Function.comp, Nat.cast_add]
  ring

mutual
theorem visitTrace_ids (t : CpuProfileNode) (path : List Nat) (parentId nextid : Int) :
    (visitTrace t path parentId nextid).map Call.id = idsFrom nextid (nodeCount t) := by
  match t with
  | .mk f s l h cs =>
    simp only [visitTrace, nodeCount, List.map_cons]
    rw [visitTraceList_ids cs path 0 nextid (nextid + 1), idsFrom_succ]
theorem visitTraceList_ids (cs : List CpuProfileNode) (path : List Nat) (i : Nat)
    (id nextid : Int) :
    (visitTraceList cs path i id nextid).map Call.id = idsFrom nextid (nodeCountList cs) := by
  match cs with
  | [] => simp [visitTraceList, nodeCountList, idsFrom]
  | c :: rest =>
    simp only [visitTraceList, nodeCountList, List.map_append]
    rw [visitTrace_ids c (path ++ [i]) id nextid,
      visitTraceList_ids rest path (i + 1) id (nextid + nodeCount c), idsFrom_add]
end

theorem mem_idsFrom {k : Int} {n : Nat} {x : Int} (h : x ∈ idsFrom k n) :
    k ≤ x ∧ x < k + n := by
  simp only [idsFrom, List.mem_map, List.mem_range] at h
  obtain ⟨i, hi, rfl⟩ := h
  omega

theorem visitTrace_id_bounds {t : CpuProfileNode} {path : List Nat} {parentId nextid : Int}
    {c : Call} (h : c ∈ visitTrace t path parentId nextid) :
    nextid ≤ c.id ∧ c.id < nextid + nodeCount t := by
  have : c.id ∈ (visitTrace t path parentId nextid).map Call.id := List.mem_map_of_mem _ h
  rw [visitTrace_ids] at this
  exact mem_idsFrom this

theorem visitTraceList_id_bounds {cs : List CpuProfileNode} {path : List Nat} {i : Nat}
    {id nextid : Int} {c : Call} (h : c ∈ visitTraceList cs path i id nextid) :
    nextid ≤ c.id ∧ c.id < nextid + nodeCountList cs := by
  have : c.id ∈ (visitTraceList cs path i id nextid).map Call.id := List.mem_map_of_mem _ h
  rw [visitTraceList_ids] at this
  exact mem_idsFrom this


mutual
theorem visitTrace_parent (t : CpuProfileNode) (path : List Nat) (parentId nextid : Int)
    (c : Call) (h : c ∈ visitTrace t path parentId nextid) :
    c = ⟨path, t, nextid, parentId⟩ ∨
      ∃ c' ∈ visitTrace t path parentId nextid, ∃ i, c.path = c'.path ++ [i] ∧
        c'.node.children[i]? = some c.node ∧ c.parentId = c'.id ∧ c'.id < c.id := by
  match t with
  | .mk f s l hc cs =>
    simp only [visitTrace, List.mem_cons] at h ⊢
    rcases h with h | h
    · exact Or.inl h
    · right
      rcases visitTraceList_parent cs path 0 nextid (nextid + 1) c h with ⟨j, h1, h2, h3, h4⟩ | h'
      · refine ⟨⟨path, .mk f s l hc cs, nextid, parentId⟩, Or.inl rfl, j, ?_, ?_, h3, ?_⟩
        · simpa using h1
        · simpa [CpuProfileNode.children] using h2
        · show nextid < c.id
          omega
      · obtain ⟨c', hc', i, hi⟩ := h'
        exact ⟨c', Or.inr hc', i, hi⟩
theorem visitTraceList_parent (cs : List CpuProfileNode) (path : List Nat) (i : Nat)
    (id nextid : Int) (c : Call) (h : c ∈ visitTraceList cs path i id nextid) :
    (∃ j, c.path = path ++ [i + j] ∧ cs[j]? = some c.node ∧ c.parentId = id ∧ nextid ≤ c.id) ∨
      ∃ c' ∈ visitTraceList cs path i id nextid, ∃ j, c.path = c'.path ++ [j] ∧
        c'.node.children[j]? = some c.node ∧ c.parentId = c'.id ∧ c'.id < c.id := by
  match cs with
  | [] => simp [visitTraceList] at h
  | c0 :: rest =>
    simp only [visitTraceList, List.mem_append] at h ⊢
    rcases h with h | h
    · rcases visitTrace_parent c0 (path ++ [i]) id nextid c h with h' | h'
      · left
        refine ⟨0, ?_, ?_, ?_, ?_⟩ <;> simp [h']
      · right
        obtain ⟨c', hc', j, hj⟩ := h'
        exact ⟨c', Or.inl hc', j, hj⟩
    · rcases visitTraceList_parent rest path (i + 1) id (nextid + nodeCount c0) c h with
        ⟨j, h1, h2, h3, h4⟩ | h'
      · left
        refine ⟨j + 1, ?_, ?_, h3, ?_⟩
        · rw [h1]
          congr 2
          omega
        · simpa using h2
        · omega
      · right
        obtain ⟨c', hc', j, hj⟩ := h'
        exact ⟨c', Or.inr hc', j, hj⟩
end

mutual
theorem visitTrace_nodeAt (t : CpuProfileNode) (path : List Nat) (parentId nextid : Int)
    (c : Call) (h : c ∈ visitTrace t path parentId nextid) :
    ∃ rel, c.path = path ++ rel ∧ nodeAt t rel = some c.node := by
  match t with
  | .mk f s l hc cs =>
    simp only [visitTrace, List.mem_cons] at h
    rcases h with h | h
    · exact ⟨[], by simp [h], by simp [h, nodeAt]⟩
    · obtain ⟨j, rel, ch, h1, h2, h3⟩ := visitTraceList_nodeAt cs path 0 nextid (nextid + 1) c h
      refine ⟨j :: rel, by simpa using h1, ?_⟩
      simp [nodeAt, CpuProfileNode.children, h2, h3]
theorem visitTraceList_nodeAt (cs : List CpuProfileNode) (path : List Nat) (i : Nat)
    (id nextid : Int) (c : Call) (h : c ∈ visitTraceList cs path i id nextid) :
    ∃ j rel ch, c.path = path ++ (i + j) :: rel ∧ cs[j]? = some ch ∧
      nodeAt ch rel = some c.node := by
  match cs with
  | [] => simp [visitTraceList] at h
  | c0 :: rest =>
    simp only [visitTraceList, List.mem_append] at h
    rcases h with h | h
    · obtain ⟨rel, h1, h2⟩ := visitTrace_nodeAt c0 (path ++ [i]) id nextid c h
      exact ⟨0, rel, c0, by simp [h1], by simp, h2⟩
    · obtain ⟨j, rel, ch, h1, h2, h3⟩ :=
        visitTraceList_nodeAt rest path (i + 1) id (nextid + nodeCount c0) c h
      refine ⟨j + 1, rel, ch, ?_, by simpa using h2, h3⟩
      rw [h1]
      congr 2
      omega
end

theorem ConstructNodeData_append (node : CpuProfileNode) (id parentId : Int) (result : String) :
    ConstructNodeData node id parentId result
      = result ++ ConstructNodeData node id parentId "" := by
  unfold ConstructNodeData
  cases ExtractV8String node.GetFunctionName with
  | none => simp
  | some function =>
    cases ExtractV8String node.GetScriptResourceName with
    | none => simp
    | some script => simp [String.append_assoc]

theorem ConstructNodeData_of_namesExtract (path : List Nat) (node : CpuProfileNode)
    (id parentId : Int) (result : String) (h : namesExtract node) :
    ConstructNodeData node id parentId result = result ++ recordLine ⟨path, node, id, parentId⟩ := by
  obtain ⟨h1, h2⟩ := h
  simp [ConstructNodeData, ExtractV8String, h1, h2, recordLine, String.intercalate,
    String.intercalate.go, String.append_assoc]

theorem replay_ConstructNodeData (calls : List Call) (result : String) :
    replay ConstructNodeData calls result
      = result ++ String.join (calls.map (fun c => ConstructNodeData c.node c.id c.parentId "")) := by
  induction calls generalizing result with
  | nil => simp [replay, String.join]
  | cons c rest ih =>
    have ih' := ih (ConstructNodeData c.node c.id c.parentId result)
    simp only [replay, List.foldl_cons, List.map_cons] at ih' ⊢
    rw [ih', ConstructNodeData_append]
    simp [String.ext_iff]

theorem map_record_of_namesExtract (calls : List Call) (h : ∀ c ∈ calls, namesExtract c.node) :
    calls.map (fun c => ConstructNodeData c.node c.id c.parentId "") = calls.map recordLine := by
  apply List.map_congr_left
  intro c hc
  rw [ConstructNodeData_of_namesExtract c.path c.node c.id c.parentId "" (h c hc)]
  simp

theorem ConstructData_eq (profile : CpuProfile) (realTime : Nat) (nextid : Int) :
    ConstructData profile realTime nextid
      = (some ("NodeProfData,Start," ++ showUnsigned realTime ++ "\n"
            ++ String.join ((visitTrace profile.GetTopDownRoot [] 0 nextid).map
                (fun c => ConstructNodeData c.node c.id c.parentId ""))
            ++ "NodeProfData,End\n"),
         nextid + nodeCount profile.GetTopDownRoot) := by
  simp only [ConstructData, NewCString]
  rw [visit_eq_replay ConstructNodeData profile.GetTopDownRoot [] 0 nextid]
  simp only [replay_ConstructNodeData]
  simp [String.ext_iff]


/-- The pointer `ConstructData` returns is never `NULL`. -/
theorem ConstructData_isSome (profile : CpuProfile) (realTime : Nat) (nextid : Int) :
    (ConstructData profile realTime nextid).1.isSome = true := by
  rw [ConstructData_eq]
  rfl

/-! ## Claims about the serializer -/

theorem namesExtract_of_mem_visitTrace {t : CpuProfileNode} {k : Int}
    (h : ∀ n ∈ preorder t, namesExtract n) : ∀ c ∈ visitTrace t [] 0 k, namesExtract c.node := by
  intro c hc
  apply h
  rw [← visitTrace_nodes t [] 0 k]
  exact List.mem_map_of_mem _ hc

theorem namesExtract_exampleProfile :
    ∀ n ∈ preorder exampleProfile.GetTopDownRoot, namesExtract n := by
  intro n hn
  simp only [exampleProfile, exampleRoot, exampleChild, preorder, preorderList, List.append_nil,
    List.mem_cons, List.mem_singleton, List.not_mem_nil, or_false] at hn
  rcases hn with rfl | rfl <;> exact ⟨rfl, rfl⟩

/-- C3: for a tree with N nodes whose names all extract, and any timestamp, the blob is the
`Start` line with the timestamp, then the record lines of the N invocations, which are on the
tree's nodes in standard pre-order, then the `End` line; every one of these lines ends in a
newline. -/
theorem C3_blob_is_preorder_records (profile : CpuProfile) (realTime : Nat) (nextid : Int)
    (h : ∀ n ∈ preorder profile.GetTopDownRoot, namesExtract n) :
    (ConstructData profile realTime nextid).1
        = some (("NodeProfData,Start," ++ showUnsigned realTime ++ "\n")
            ++ String.join ((visitTrace profile.GetTopDownRoot [] 0 nextid).map recordLine)
            ++ ("NodeProfData,End" ++ "\n"))
      ∧ (visitTrace profile.GetTopDownRoot [] 0 nextid).length = nodeCount profile.GetTopDownRoot
      ∧ (visitTrace profile.GetTopDownRoot [] 0 nextid).map Call.node
          = preorder profile.GetTopDownRoot
      ∧ (∀ c ∈ visitTrace profile.GetTopDownRoot [] 0 nextid,
          ∃ body, recordLine c = body ++ "\n") := by
  refine ⟨?_, visitTrace_length _ _ _ _, visitTrace_nodes _ _ _ _, ?_⟩
  · rw [ConstructData_eq, map_record_of_namesExtract _ (namesExtract_of_mem_visitTrace h)]
    rfl
  · intro c _
    exact ⟨_, rfl⟩

/-- C3 (witness): the two-node example profile, all of whose names extract. -/
theorem C3_blob_is_preorder_records_witness :
    (∀ n ∈ preorder exampleProfile.GetTopDownRoot, namesExtract n) ∧
      (ConstructData exampleProfile 1700000000000 1).1
        = some (("NodeProfData,Start," ++ showUnsigned 1700000000000 ++ "\n")
            ++ String.join ((visitTrace exampleProfile.GetTopDownRoot [] 0 1).map recordLine)
            ++ ("NodeProfData,End" ++ "\n")) :=
  ⟨namesExtract_exampleProfile,
    (C3_blob_is_preorder_records exampleProfile 1700000000000 1 namesExtract_exampleProfile).1⟩

/-- C4: for a node whose two names extract, visited with id `id` and parent id `parentId`,
`ConstructNodeData` appends exactly one line: the comma-separated fields `NodeProfData`, `Node`,
the id, the parent id, the script name, the function name, the line number (all numbers in
decimal, the texts unescaped) and the self sample count as the stream prints it, then a newline.
The specification's two-node tree, serialized first in a process at any timestamp, gives exactly
the specification's four lines. -/
theorem C4_record_format :
    (∀ (node : CpuProfileNode) (id parentId : Int) (result : String), namesExtract node →
        ConstructNodeData node id parentId result
          = result ++ String.intercalate ","
              ["NodeProfData", "Node", showInt id, showInt parentId,
               node.GetScriptResourceName.utf8, node.GetFunctionName.utf8,
               showInt node.GetLineNumber, showDouble node.GetHitCount] ++ "\n")
      ∧ (∀ T : Nat, (ConstructData exampleProfile T initialState.nextid).1
          = some ("NodeProfData,Start," ++ showUnsigned T
              ++ "\nNodeProfData,Node,1,0,main.js,(root),0,0\nNodeProfData,Node,2,1,a.js,foo,12,3\nNodeProfData,End\n")) := by
  constructor
  · intro node id parentId result h
    rw [ConstructNodeData_of_namesExtract [] node id parentId result h]
    simp [recordLine, String.append_assoc]
  · intro T
    rw [ConstructData_eq]
    have e : String.join ((visitTrace exampleProfile.GetTopDownRoot [] 0 initialState.nextid).map
        (fun c => ConstructNodeData c.node c.id c.parentId ""))
        = "NodeProfData,Node,1,0,main.js,(root),0,0\nNodeProfData,Node,2,1,a.js,foo,12,3\n" := by
      decide
    simp only [e, String.append_assoc]
    rfl

/-- C4 (witness): the record of the example child, visited with id 2 under parent 1. -/
theorem C4_record_format_witness :
    namesExtract exampleChild ∧
      ConstructNodeData exampleChild 2 1 "" = "NodeProfData,Node,2,1,a.js,foo,12,3\n" :=
  ⟨⟨rfl, rfl⟩, (C4_record_format.1 exampleChild 2 1 "" ⟨rfl, rfl⟩).trans (by decide)⟩

/-! ## Facts about the control message -/

theorem find_of_not_mem (s : String) (c : Char) (h : c ∉ s.data) : find s c = npos := by
  have : ¬ (List.indexOf c s.data < s.data.length) := by
    rw [List.indexOf_lt_length]
    exact h
  unfold find
  rw [if_neg this]

theorem data_command_topic (command topic : String) :
    (command ++ "," ++ topic).data = command.data ++ ',' :: topic.data := by
  simp only [String.data_append, List.append_assoc]
  rfl

theorem find_command_topic (command topic : String) (h : ',' ∉ command.data) :
    find (command ++ "," ++ topic) ',' = command.data.length := by
  have e : List.indexOf ',' (command.data ++ ',' :: topic.data) = command.data.length := by
    rw [List.indexOf_append_of_not_mem h, List.indexOf_cons_self]
    rfl
  have l : command.data.length < (command.data ++ ',' :: topic.data).length := by
    simp only [List.length_append, List.length_cons]
    omega
  unfold find
  rw [data_command_topic, e, if_pos l]

theorem message_eq (payload : String) :
    String.mk (payload.data.take payload.length) = payload := by
  have : payload.data.take payload.length = payload.data := List.take_of_length_le (le_refl _)
  rw [this]

theorem take_npos (l : List Char) (h : l.length < 2 ^ 32) : l.take npos = l := by
  apply List.take_of_length_le
  simp only [npos]
  omega

/-- A payload without a comma: `find` gives `npos`, `found + 1` wraps to 0, and both `command`
and `rest` are the whole payload; the request is a disable when the payload is the topic name. -/
theorem receiveMessage_without_comma (id payload : String) (hc : ',' ∉ payload.data)
    (hlen : payload.length < 2 ^ 32) :
    ibmras_monitoring_receiveMessage id payload.length payload
      = some (if id = "profiling_node" ∧ payload = "profiling_node_subsystem"
          then setEnabled false else []) := by
  have hwrap : sizeAdd npos 1 = 0 := by decide
  have hsub : substr payload 0 npos = some payload := by
    unfold substr
    rw [if_neg (Nat.not_lt_zero _), List.drop_zero, take_npos _ hlen]
  unfold ibmras_monitoring_receiveMessage
  by_cases hid : id = "profiling_node"
  · simp only [hid, if_true, message_eq, find_of_not_mem payload ',' hc, hwrap, hsub, true_and]
    by_cases hp : payload = "profiling_node_subsystem"
    · subst hp
      rfl
    · simp only [hp, if_false]
  · simp only [hid, if_false, false_and]

/-- C6 (the code at the failing input): the comma-free payload `profiling_node_subsystem` sent
with id `profiling_node` is not ignored: it issues a disable request. -/
theorem C6_topic_only_payload_requests_disable :
    ',' ∉ "profiling_node_subsystem".data
      ∧ ibmras_monitoring_receiveMessage "profiling_node" 24 "profiling_node_subsystem"
          = some (setEnabled false)
      ∧ setEnabled false
          = [.logMessage .fine "[profiling_node] Disabling",
             .uv_async_init .disableOnV8Thread, .uv_async_send] := by
  decide

/-- C7: for a payload `command,topic` (no comma in `command`, length within `uint32`), the
function makes the calls of exactly one `setEnabled`, with argument `true` iff `command` is `on`,
when the id is `profiling_node` and the topic is `profiling_node_subsystem`; otherwise it makes
no call at all. One `setEnabled` is one log line and one async request naming the enable or the
disable callback. -/
theorem C7_message_with_comma (id command topic : String) (hc : ',' ∉ command.data)
    (hlen : (command ++ "," ++ topic).length < 2 ^ 32) :
    ibmras_monitoring_receiveMessage id (command ++ "," ++ topic).length (command ++ "," ++ topic)
        = some (if id = "profiling_node" ∧ topic = "profiling_node_subsystem"
            then setEnabled (decide (command = "on")) else [])
      ∧ setEnabled true
          = [.logMessage .fine "[profiling_node] Enabling",
             .uv_async_init .enableOnV8Thread, .uv_async_send]
      ∧ setEnabled false
          = [.logMessage .fine "[profiling_node] Disabling",
             .uv_async_init .disableOnV8Thread, .uv_async_send] := by
  refine ⟨?_, rfl, rfl⟩
  have hl : (command.data ++ ',' :: topic.data).length < 2 ^ 32 := by
    rw [← data_command_topic]
    exact hlen
  simp only [List.length_append, List.length_cons] at hl
  have hadd : sizeAdd command.data.length 1 = command.data.length + 1 := by
    simp only [sizeAdd]
    apply Nat.mod_eq_of_lt
    omega
  have hcmd : substr (command ++ "," ++ topic) 0 command.data.length = some command := by
    unfold substr
    rw [if_neg (Nat.not_lt_zero _), List.drop_zero, data_command_topic, List.take_left]
  have hrest : substr (command ++ "," ++ topic) (command.data.length + 1) npos = some topic := by
    have hd : (command.data ++ ',' :: topic.data).drop (command.data.length + 1) = topic.data := by
      rw [show command.data ++ ',' :: topic.data = (command.data ++ [',']) ++ topic.data by simp]
      apply List.drop_left'
      simp
    have hlt : ¬ (command.data ++ ',' :: topic.data).length < command.data.length + 1 := by
      simp only [List.length_append, List.length_cons]
      omega
    unfold substr
    rw [data_command_topic, if_neg hlt, hd, take_npos _ (by omega)]
  unfold ibmras_monitoring_receiveMessage
  by_cases hid : id = "profiling_node"
  · simp only [hid, if_true, message_eq, find_command_topic command topic hc, hcmd, hadd, hrest,
      true_and]
    by_cases ht : topic = "profiling_node_subsystem"
    · simp only [ht, if_true]
    · simp only [ht, if_false]
  · simp only [hid, if_false, false_and]

/-- C7 (witness): the payload `on,profiling_node_subsystem` sent with id `profiling_node`. -/
theorem C7_message_with_comma_witness :
    ',' ∉ "on".data ∧ ("on" ++ "," ++ "profiling_node_subsystem").length < 2 ^ 32
      ∧ ibmras_monitoring_receiveMessage "profiling_node"
            ("on" ++ "," ++ "profiling_node_subsystem").length
            ("on" ++ "," ++ "profiling_node_subsystem")
          = some (if "profiling_node" = "profiling_node"
                ∧ "profiling_node_subsystem" = "profiling_node_subsystem"
              then setEnabled (decide ("on" = "on")) else []) :=
  ⟨by decide, by decide,
    (C7_message_with_comma "profiling_node" "on" "profiling_node_subsystem" (by decide)
      (by decide)).1⟩


/-! ## Facts about the toggle handlers -/

theorem publishEnabled_on (s : State) (h : s.enabled = true) :
    publishEnabled s
      = { s with trace := s.trace ++
            [.logMessage .debug "[profiling_node] Sending config message [profiling_node_subsystem=on]",
             .agentSendMessage "configuration/profiling_node" 27 "profiling_node_subsystem=on"] } := by
  simp only [publishEnabled, h, if_true, State.emit, List.append_assoc, List.singleton_append]
  rfl

theorem publishEnabled_off (s : State) (h : s.enabled = false) :
    publishEnabled s
      = { s with trace := s.trace ++
            [.logMessage .debug "[profiling_node] Sending config message [profiling_node_subsystem=off]",
             .agentSendMessage "configuration/profiling_node" 28 "profiling_node_subsystem=off"] } := by
  simp only [publishEnabled, h, Bool.false_eq_true, if_false, State.emit, List.append_assoc,
    List.singleton_append]
  rfl

/-- The calls of one run of `StartTheProfiler`, by what the environment offers. -/
theorem StartTheProfiler_eq (env : Env) (s : State) :
    StartTheProfiler env s
      = if env.isolate = false then
          { s with trace := s.trace ++ [.logMessage .debug "[profiling_node] No V8 Isolate found"] }
        else if env.cpuProfiler = false then
          { s with trace := s.trace ++ [.logMessage .debug "[profiling_node] No CpuProfiler found"] }
        else
          { s with sessionActive := true,
                   trace := s.trace ++ [.StartProfiling "NodeProfPlugin" false] } := by
  cases hi : env.isolate <;> cases hc : env.cpuProfiler <;>
    simp [StartTheProfiler, GetIsolate, GetCpuProfiler, State.emit, hi, hc]

/-- The calls and the result of one run of `StopTheProfiler`, by what the environment offers. -/
theorem StopTheProfiler_eq (env : Env) (s : State) :
    StopTheProfiler env s
      = if env.isolate = false then
          (none, { s with trace := s.trace
            ++ [.logMessage .debug "[profiling_node] No V8 Isolate found"] })
        else if env.cpuProfiler = false then
          (none, { s with trace := s.trace
            ++ [.logMessage .debug "[profiling_node] No CpuProfiler found"] })
        else
          (env.stopped, { s with sessionActive := false,
                                 trace := s.trace ++ [.StopProfiling "NodeProfPlugin"] }) := by
  cases hi : env.isolate <;> cases hc : env.cpuProfiler <;>
    simp [StopTheProfiler, GetIsolate, GetCpuProfiler, State.emit, hi, hc]

theorem eventsSince_of_trace {s s' : State} {l : List Event} (h : s'.trace = s.trace ++ l) :
    eventsSince s s' = l := by
  simp [eventsSince, h]

/-- The enable handler from a disabled state, step by step. -/
theorem enableOnV8Thread_of_disabled (env : Env) (s : State) (h : s.enabled = false) :
    enableOnV8Thread env s
      = uv_close .async (uv_timer_start 5000 5000 (StartTheProfiler env
          { s with enabled := true,
                   trace := s.trace ++
                     [.logMessage .debug "[profiling_node] Publishing config",
                      .logMessage .debug
                        "[profiling_node] Sending config message [profiling_node_subsystem=on]",
                      .agentSendMessage "configuration/profiling_node" 27
                        "profiling_node_subsystem=on"] })) := by
  unfold enableOnV8Thread
  rw [if_neg (by simp [h])]
  simp only [PROFILING_INTERVAL]
  rw [publishEnabled_on _ rfl]
  simp [State.emit]

/-- The disable handler from an enabled state, step by step. -/
theorem disableOnV8Thread_of_enabled (env : Env) (s : State) (h : s.enabled = true) :
    disableOnV8Thread env s
      = uv_close .async
          (ReleaseProfile
            (StopTheProfiler env
              { s with enabled := false, timerArmed := none,
                       trace := s.trace ++
                         [.logMessage .debug "[profiling_node] Publishing config",
                          .logMessage .debug
                            "[profiling_node] Sending config message [profiling_node_subsystem=off]",
                          .agentSendMessage "configuration/profiling_node" 28
                            "profiling_node_subsystem=off",
                          .uv_timer_stop] }).1
            (StopTheProfiler env
              { s with enabled := false, timerArmed := none,
                       trace := s.trace ++
                         [.logMessage .debug "[profiling_node] Publishing config",
                          .logMessage .debug
                            "[profiling_node] Sending config message [profiling_node_subsystem=off]",
                          .agentSendMessage "configuration/profiling_node" 28
                            "profiling_node_subsystem=off",
                          .uv_timer_stop] }).2) := by
  unfold disableOnV8Thread
  rw [if_neg (by simp [h])]
  dsimp only
  rw [publishEnabled_off _ rfl]
  simp [State.emit, uv_timer_stop]

/-- The state the enable handler leaves, from a disabled state. -/
theorem enableOnV8Thread_state (env : Env) (s : State) (h : s.enabled = false) :
    enableOnV8Thread env s
      = { s with
          enabled := true,
          timerArmed := some (5000, 5000),
          sessionActive := if env.isolate = true ∧ env.cpuProfiler = true then true
            else s.sessionActive,
          trace := s.trace ++
            ([.logMessage .debug "[profiling_node] Publishing config",
              .logMessage .debug
                "[profiling_node] Sending config message [profiling_node_subsystem=on]",
              .agentSendMessage "configuration/profiling_node" 27 "profiling_node_subsystem=on"]
            ++ (if env.isolate = false then
                  [.logMessage .debug "[profiling_node] No V8 Isolate found"]
                else if env.cpuProfiler = false then
                  [.logMessage .debug "[profiling_node] No CpuProfiler found"]
                else [.StartProfiling "NodeProfPlugin" false])
            ++ [.uv_timer_start 5000 5000, .uv_close .async]) } := by
  rw [enableOnV8Thread_of_disabled env s h, StartTheProfiler_eq]
  cases hi : env.isolate <;> cases hc : env.cpuProfiler <;>
    simp [uv_close, uv_timer_start, State.emit]

/-- The state the disable handler leaves, from an enabled state. -/
theorem disableOnV8Thread_state (env : Env) (s : State) (h : s.enabled = true) :
    disableOnV8Thread env s
      = { s with
          enabled := false,
          timerArmed := none,
          sessionActive := if env.isolate = true ∧ env.cpuProfiler = true then false
            else s.sessionActive,
          trace := s.trace ++
            ([.logMessage .debug "[profiling_node] Publishing config",
              .logMessage .debug
                "[profiling_node] Sending config message [profiling_node_subsystem=off]",
              .agentSendMessage "configuration/profiling_node" 28 "profiling_node_subsystem=off",
              .uv_timer_stop]
            ++ (if env.isolate = false then
                  [.logMessage .debug "[profiling_node] No V8 Isolate found"]
                else if env.cpuProfiler = false then
                  [.logMessage .debug "[profiling_node] No CpuProfiler found"]
                else if env.stopped.isSome then [.StopProfiling "NodeProfPlugin", .Delete]
                else [.StopProfiling "NodeProfPlugin"])
            ++ [.uv_close .async]) } := by
  rw [disableOnV8Thread_of_enabled env s h, StopTheProfiler_eq]
  cases hi : env.isolate <;> cases hc : env.cpuProfiler <;> cases hs : env.stopped <;>
    simp [uv_close, ReleaseProfile, State.emit]


theorem enableOnV8Thread_events (env : Env) (s : State) (h : s.enabled = false) :
    eventsSince s (enableOnV8Thread env s)
      = [.logMessage .debug "[profiling_node] Publishing config",
          .logMessage .debug
            "[profiling_node] Sending config message [profiling_node_subsystem=on]",
          .agentSendMessage "configuration/profiling_node" 27 "profiling_node_subsystem=on"]
        ++ (if env.isolate = false then
              [.logMessage .debug "[profiling_node] No V8 Isolate found"]
            else if env.cpuProfiler = false then
              [.logMessage .debug "[profiling_node] No CpuProfiler found"]
            else [.StartProfiling "NodeProfPlugin" false])
        ++ [.uv_timer_start 5000 5000, .uv_close .async] := by
  apply eventsSince_of_trace
  rw [enableOnV8Thread_state env s h]

theorem disableOnV8Thread_events (env : Env) (s : State) (h : s.enabled = true) :
    eventsSince s (disableOnV8Thread env s)
      = [.logMessage .debug "[profiling_node] Publishing config",
          .logMessage .debug
            "[profiling_node] Sending config message [profiling_node_subsystem=off]",
          .agentSendMessage "configuration/profiling_node" 28 "profiling_node_subsystem=off",
          .uv_timer_stop]
        ++ (if env.isolate = false then
              [.logMessage .debug "[profiling_node] No V8 Isolate found"]
            else if env.cpuProfiler = false then
              [.logMessage .debug "[profiling_node] No CpuProfiler found"]
            else if env.stopped.isSome then [.StopProfiling "NodeProfPlugin", .Delete]
            else [.StopProfiling "NodeProfPlugin"])
        ++ [.uv_close .async] := by
  apply eventsSince_of_trace
  rw [disableOnV8Thread_state env s h]

theorem enableOnV8Thread_of_enabled (env : Env) (s : State) (h : s.enabled = true) :
    enableOnV8Thread env s = s := by
  simp [enableOnV8Thread, h]

theorem disableOnV8Thread_of_disabled (env : Env) (s : State) (h : s.enabled = false) :
    disableOnV8Thread env s = s := by
  simp [disableOnV8Thread, h]

/-! ## Claims about the toggle -/

/-- C8: a toggle request for the state the plugin is already in changes nothing: the enable
handler on an enabled state and the disable handler on a disabled state return the state as it
was, calls included. So enable twice from disabled sends one config message and arms the timer
once, and disable twice from enabled sends one config message, disarms the timer once and runs
`StopTheProfiler` once (one `StopProfiling` call when an isolate and a profiler exist). -/
theorem C8_repeated_toggle_is_noop :
    (∀ (env : Env) (s : State), s.enabled = true → enableOnV8Thread env s = s)
      ∧ (∀ (env : Env) (s : State), s.enabled = false → disableOnV8Thread env s = s)
      ∧ (∀ (env1 env2 : Env) (s : State), s.enabled = false →
          enableOnV8Thread env2 (enableOnV8Thread env1 s) = enableOnV8Thread env1 s
          ∧ (eventsSince s (enableOnV8Thread env2 (enableOnV8Thread env1 s))).countP
              Event.isSendMessage = 1
          ∧ (eventsSince s (enableOnV8Thread env2 (enableOnV8Thread env1 s))).countP
              Event.isTimerStart = 1)
      ∧ (∀ (env1 env2 : Env) (s : State), s.enabled = true →
          disableOnV8Thread env2 (disableOnV8Thread env1 s) = disableOnV8Thread env1 s
          ∧ (eventsSince s (disableOnV8Thread env2 (disableOnV8Thread env1 s))).countP
              Event.isSendMessage = 1
          ∧ (eventsSince s (disableOnV8Thread env2 (disableOnV8Thread env1 s))).countP
              Event.isTimerStop = 1
          ∧ (eventsSince s (disableOnV8Thread env2 (disableOnV8Thread env1 s))).countP
              Event.isStopProfiling
                = if env1.isolate = true ∧ env1.cpuProfiler = true then 1 else 0) := by
  refine ⟨enableOnV8Thread_of_enabled, disableOnV8Thread_of_disabled, ?_, ?_⟩
  · intro env1 env2 s h
    have e : enableOnV8Thread env2 (enableOnV8Thread env1 s) = enableOnV8Thread env1 s := by
      apply enableOnV8Thread_of_enabled
      rw [enableOnV8Thread_state env1 s h]
    rw [e, enableOnV8Thread_events env1 s h]
    refine ⟨rfl, ?_, ?_⟩ <;>
      cases env1.isolate <;> cases env1.cpuProfiler <;> rfl
  · intro env1 env2 s h
    have e : disableOnV8Thread env2 (disableOnV8Thread env1 s) = disableOnV8Thread env1 s := by
      apply disableOnV8Thread_of_disabled
      rw [disableOnV8Thread_state env1 s h]
    rw [e, disableOnV8Thread_events env1 s h]
    refine ⟨rfl, ?_, ?_, ?_⟩ <;>
      cases env1.isolate <;> cases env1.cpuProfiler <;> cases env1.stopped <;> rfl

/-- C8 (witness): the states reached by starting the plugin enabled and disabled. -/
theorem C8_repeated_toggle_is_noop_witness :
    (startedEnabled.enabled = true
        ∧ enableOnV8Thread (envReturning 0 none) startedEnabled = startedEnabled)
      ∧ (startedDisabled.enabled = false
        ∧ disableOnV8Thread (envReturning 0 none) startedDisabled = startedDisabled)
      ∧ (startedDisabled.enabled = false
        ∧ (eventsSince startedDisabled
            (enableOnV8Thread (envReturning 1 none)
              (enableOnV8Thread (envReturning 0 none) startedDisabled))).countP
            Event.isSendMessage = 1)
      ∧ (startedEnabled.enabled = true
        ∧ (eventsSince startedEnabled
            (disableOnV8Thread (envReturning 1 none)
              (disableOnV8Thread (envReturning 0 none) startedEnabled))).countP
            Event.isSendMessage = 1) :=
  ⟨⟨by decide, C8_repeated_toggle_is_noop.1 (envReturning 0 none) startedEnabled (by decide)⟩,
   ⟨by decide, C8_repeated_toggle_is_noop.2.1 (envReturning 0 none) startedDisabled (by decide)⟩,
   ⟨by decide, (C8_repeated_toggle_is_noop.2.2.1 (envReturning 0 none) (envReturning 1 none)
      startedDisabled (by decide)).2.1⟩,
   ⟨by decide, (C8_repeated_toggle_is_noop.2.2.2 (envReturning 0 none) (envReturning 1 none)
      startedEnabled (by decide)).2.1⟩⟩


/-- C9: from a disabled state the enable handler sets `enabled`, then sends the one message
`profiling_node_subsystem=on` on topic `configuration/profiling_node`, then runs
`StartTheProfiler` once (one `StartProfiling` call when an isolate and a profiler exist, one log
line otherwise), then arms the timer once with delay and period 5000 ms, then closes the async
handle; it makes no `StopProfiling`, `Delete`, `uv_timer_stop` or `agentPushData` call and leaves
the id counter alone. The control message `on,profiling_node_subsystem` requests exactly this
handler. -/
theorem C9_enable_from_disabled (env : Env) (s : State) (h : s.enabled = false) :
    (enableOnV8Thread env s).enabled = true
      ∧ enableOnV8Thread env s
          = uv_close .async (uv_timer_start PROFILING_INTERVAL PROFILING_INTERVAL
              (StartTheProfiler env
                { s with enabled := true,
                         trace := s.trace ++
                           [.logMessage .debug "[profiling_node] Publishing config",
                            .logMessage .debug
                              "[profiling_node] Sending config message [profiling_node_subsystem=on]",
                            .agentSendMessage "configuration/profiling_node" 27
                              "profiling_node_subsystem=on"] }))
      ∧ eventsSince s (enableOnV8Thread env s)
          = [.logMessage .debug "[profiling_node] Publishing config",
              .logMessage .debug
                "[profiling_node] Sending config message [profiling_node_subsystem=on]",
              .agentSendMessage "configuration/profiling_node" 27 "profiling_node_subsystem=on"]
            ++ (if env.isolate = false then
                  [.logMessage .debug "[profiling_node] No V8 Isolate found"]
                else if env.cpuProfiler = false then
                  [.logMessage .debug "[profiling_node] No CpuProfiler found"]
                else [.StartProfiling "NodeProfPlugin" false])
            ++ [.uv_timer_start 5000 5000, .uv_close .async]
      ∧ (enableOnV8Thread env s).timerArmed = some (5000, 5000)
      ∧ (enableOnV8Thread env s).nextid = s.nextid
      ∧ (eventsSince s (enableOnV8Thread env s)).countP Event.isSendMessage = 1
      ∧ (eventsSince s (enableOnV8Thread env s)).countP Event.isTimerStart = 1
      ∧ (eventsSince s (enableOnV8Thread env s)).countP Event.isStartProfiling
          = (if env.isolate = true ∧ env.cpuProfiler = true then 1 else 0)
      ∧ (eventsSince s (enableOnV8Thread env s)).countP Event.isStopProfiling = 0
      ∧ (eventsSince s (enableOnV8Thread env s)).countP Event.isDelete = 0
      ∧ (eventsSince s (enableOnV8Thread env s)).countP Event.isTimerStop = 0
      ∧ (eventsSince s (enableOnV8Thread env s)).countP Event.isPushData = 0
      ∧ ibmras_monitoring_receiveMessage "profiling_node" 27 "on,profiling_node_subsystem"
          = some [.logMessage .fine "[profiling_node] Enabling",
                  .uv_async_init .enableOnV8Thread, .uv_async_send]
      ∧ AsyncCallback.enableOnV8Thread.run env s = enableOnV8Thread env s := by
  rw [enableOnV8Thread_events env s h]
  refine ⟨?_, ?_, rfl, ?_, ?_, ?_, ?_, ?_, ?_, ?_, ?_, ?_, by decide, rfl⟩
  · rw [enableOnV8Thread_state env s h]
  · exact enableOnV8Thread_of_disabled env s h
  · rw [enableOnV8Thread_state env s h]
  · rw [enableOnV8Thread_state env s h]
  all_goals cases env.isolate <;> cases env.cpuProfiler <;> rfl

/-- C9 (witness): the enable handler on the state reached by starting the plugin disabled. -/
theorem C9_enable_from_disabled_witness :
    startedDisabled.enabled = false
      ∧ (enableOnV8Thread (envReturning 0 none) startedDisabled).enabled = true
      ∧ eventsSince startedDisabled (enableOnV8Thread (envReturning 0 none) startedDisabled)
          = [.logMessage .debug "[profiling_node] Publishing config",
              .logMessage .debug
                "[profiling_node] Sending config message [profiling_node_subsystem=on]",
              .agentSendMessage "configuration/profiling_node" 27 "profiling_node_subsystem=on",
              .StartProfiling "NodeProfPlugin" false,
              .uv_timer_start 5000 5000, .uv_close .async] :=
  ⟨by decide,
   (C9_enable_from_disabled (envReturning 0 none) startedDisabled (by decide)).1,
   (C9_enable_from_disabled (envReturning 0 none) startedDisabled (by decide)).2.2.1⟩

/-- C10: from an enabled state the disable handler clears `enabled`, then sends the one message
`profiling_node_subsystem=off` on topic `configuration/profiling_node`, then disarms the timer,
then runs `StopTheProfiler` once (one `StopProfiling` call when an isolate and a profiler exist)
and hands whatever it returns to `ReleaseProfile` only, then closes the async handle: nothing is
serialized (the id counter is unchanged), nothing is pushed, no session is started and the timer
is not armed again. -/
theorem C10_disable_from_enabled (env : Env) (s : State) (h : s.enabled = true) :
    (disableOnV8Thread env s).enabled = false
      ∧ disableOnV8Thread env s
          = uv_close .async
              (ReleaseProfile
                (StopTheProfiler env
                  { s with enabled := false, timerArmed := none,
                           trace := s.trace ++
                             [.logMessage .debug "[profiling_node] Publishing config",
                              .logMessage .debug
                                "[profiling_node] Sending config message [profiling_node_subsystem=off]",
                              .agentSendMessage "configuration/profiling_node" 28
                                "profiling_node_subsystem=off",
                              .uv_timer_stop] }).1
                (StopTheProfiler env
                  { s with enabled := false, timerArmed := none,
                           trace := s.trace ++
                             [.logMessage .debug "[profiling_node] Publishing config",
                              .logMessage .debug
                                "[profiling_node] Sending config message [profiling_node_subsystem=off]",
                              .agentSendMessage "configuration/profiling_node" 28
                                "profiling_node_subsystem=off",
                              .uv_timer_stop] }).2)
      ∧ eventsSince s (disableOnV8Thread env s)
          = [.logMessage .debug "[profiling_node] Publishing config",
              .logMessage .debug
                "[profiling_node] Sending config message [profiling_node_subsystem=off]",
              .agentSendMessage "configuration/profiling_node" 28 "profiling_node_subsystem=off",
              .uv_timer_stop]
            ++ (if env.isolate = false then
                  [.logMessage .debug "[profiling_node] No V8 Isolate found"]
                else if env.cpuProfiler = false then
                  [.logMessage .debug "[profiling_node] No CpuProfiler found"]
                else if env.stopped.isSome then [.StopProfiling "NodeProfPlugin", .Delete]
                else [.StopProfiling "NodeProfPlugin"])
            ++ [.uv_close .async]
      ∧ (disableOnV8Thread env s).timerArmed = none
      ∧ (disableOnV8Thread env s).nextid = s.nextid
      ∧ (eventsSince s (disableOnV8Thread env s)).countP Event.isSendMessage = 1
      ∧ (eventsSince s (disableOnV8Thread env s)).countP Event.isTimerStop = 1
      ∧ (eventsSince s (disableOnV8Thread env s)).countP Event.isStopProfiling
          = (if env.isolate = true ∧ env.cpuProfiler = true then 1 else 0)
      ∧ (eventsSince s (disableOnV8Thread env s)).countP Event.isDelete
          = (if env.isolate = true ∧ env.cpuProfiler = true ∧ env.stopped.isSome = true
              then 1 else 0)
      ∧ (eventsSince s (disableOnV8Thread env s)).countP Event.isStartProfiling = 0
      ∧ (eventsSince s (disableOnV8Thread env s)).countP Event.isTimerStart = 0
      ∧ (eventsSince s (disableOnV8Thread env s)).countP Event.isPushData = 0 := by
  rw [disableOnV8Thread_events env s h]
  refine ⟨?_, ?_, rfl, ?_, ?_, ?_, ?_, ?_, ?_, ?_, ?_, ?_⟩
  · rw [disableOnV8Thread_state env s h]
  · exact disableOnV8Thread_of_enabled env s h
  · rw [disableOnV8Thread_state env s h]
  · rw [disableOnV8Thread_state env s h]
  all_goals cases env.isolate <;> cases env.cpuProfiler <;> cases env.stopped <;> rfl

/-- C10 (witness): the disable handler on the state reached by starting the plugin enabled,
when the stop returns the example profile. -/
theorem C10_disable_from_enabled_witness :
    startedEnabled.enabled = true
      ∧ (disableOnV8Thread (envReturning 0 (some exampleProfile)) startedEnabled).enabled = false
      ∧ eventsSince startedEnabled
            (disableOnV8Thread (envReturning 0 (some exampleProfile)) startedEnabled)
          = [.logMessage .debug "[profiling_node] Publishing config",
              .logMessage .debug
                "[profiling_node] Sending config message [profiling_node_subsystem=off]",
              .agentSendMessage "configuration/profiling_node" 28 "profiling_node_subsystem=off",
              .uv_timer_stop, .StopProfiling "NodeProfPlugin", .Delete, .uv_close .async] :=
  ⟨by decide,
   (C10_disable_from_enabled (envReturning 0 (some exampleProfile)) startedEnabled (by decide)).1,
   (C10_disable_from_enabled (envReturning 0 (some exampleProfile)) startedEnabled
      (by decide)).2.2.1⟩


/-! ## Facts about the timer tick -/

theorem OnGatherDataOnV8Thread_of_disabled (env : Env) (s : State) (h : s.enabled = false) :
    OnGatherDataOnV8Thread env s = s := by
  simp [OnGatherDataOnV8Thread, h]

/-- The tick on an enabled state when the stop returns no profile. -/
theorem OnGatherDataOnV8Thread_absent (env : Env) (s : State) (h : s.enabled = true)
    (hn : (StopTheProfiler env s).1 = none) :
    OnGatherDataOnV8Thread env s
      = StartTheProfiler env
          ((StopTheProfiler env s).2.emit
            (.logMessage .debug "[profiling_node] No method profile found")) := by
  unfold OnGatherDataOnV8Thread
  rw [if_neg (by simp [h])]
  simp only [hn]

/-- The tick on an enabled state when the stop returns a profile. -/
theorem OnGatherDataOnV8Thread_tree (env : Env) (s : State) (profile : CpuProfile)
    (blob : String) (k : Int) (h : s.enabled = true)
    (hp : (StopTheProfiler env s).1 = some profile)
    (hb : ConstructData profile env.realTime s.nextid = (some blob, k)) :
    OnGatherDataOnV8Thread env s
      = (StartTheProfiler env
          (ReleaseProfile (some profile) { (StopTheProfiler env s).2 with nextid := k })).emit
          (.agentPushData
            { persistent := false, provID := s.provid, sourceID := 0,
              size := blob.length % 2 ^ 32, data := blob }) := by
  have hid : (StopTheProfiler env s).2.nextid = s.nextid := by
    rw [StopTheProfiler_eq]
    cases env.isolate <;> cases env.cpuProfiler <;> rfl
  have hpv : (StartTheProfiler env
      (ReleaseProfile (some profile) { (StopTheProfiler env s).2 with nextid := k })).provid
      = s.provid := by
    rw [StartTheProfiler_eq, StopTheProfiler_eq]
    cases env.isolate <;> cases env.cpuProfiler <;> rfl
  unfold OnGatherDataOnV8Thread
  rw [if_neg (by simp [h])]
  simp only [hp, hid, hb, hpv]

/-- What `StopTheProfiler` returns, by what the environment offers. -/
theorem StopTheProfiler_result (env : Env) (s : State) :
    (StopTheProfiler env s).1 = if env.capable = true then env.stopped else none := by
  rw [StopTheProfiler_eq]
  cases hi : env.isolate <;> cases hc : env.cpuProfiler <;> simp [Env.capable, hi, hc]

/-- The state the tick leaves, from an enabled state, when the stop returns no profile. -/
theorem OnGatherDataOnV8Thread_absent_state (env : Env) (s : State) (h : s.enabled = true)
    (hn : (StopTheProfiler env s).1 = none) :
    OnGatherDataOnV8Thread env s
      = { s with
          sessionActive := if env.capable = true then true else s.sessionActive,
          trace := s.trace ++
            (if env.isolate = false then
              [.logMessage .debug "[profiling_node] No V8 Isolate found",
               .logMessage .debug "[profiling_node] No method profile found",
               .logMessage .debug "[profiling_node] No V8 Isolate found"]
            else if env.cpuProfiler = false then
              [.logMessage .debug "[profiling_node] No CpuProfiler found",
               .logMessage .debug "[profiling_node] No method profile found",
               .logMessage .debug "[profiling_node] No CpuProfiler found"]
            else
              [.StopProfiling "NodeProfPlugin",
               .logMessage .debug "[profiling_node] No method profile found",
               .StartProfiling "NodeProfPlugin" false]) } := by
  rw [OnGatherDataOnV8Thread_absent env s h hn, StartTheProfiler_eq, StopTheProfiler_eq]
  cases hi : env.isolate <;> cases hc : env.cpuProfiler <;>
    simp [State.emit, Env.capable, hi, hc]

/-- The state the tick leaves, from an enabled state, when the stop returns a profile. -/
theorem OnGatherDataOnV8Thread_tree_state (env : Env) (s : State) (profile : CpuProfile)
    (blob : String) (k : Int) (h : s.enabled = true)
    (hp : (StopTheProfiler env s).1 = some profile)
    (hb : ConstructData profile env.realTime s.nextid = (some blob, k)) :
    OnGatherDataOnV8Thread env s
      = { s with
          sessionActive := true,
          nextid := k,
          trace := s.trace ++
            [.StopProfiling "NodeProfPlugin", .Delete, .StartProfiling "NodeProfPlugin" false,
             .agentPushData
               { persistent := false, provID := s.provid, sourceID := 0,
                 size := blob.length % 2 ^ 32, data := blob }] } := by
  rw [OnGatherDataOnV8Thread_tree env s profile blob k h hp hb]
  rw [StopTheProfiler_result] at hp
  have hcap : env.capable = true := by
    by_contra hc
    simp [hc] at hp
  simp only [Env.capable, Bool.and_eq_true] at hcap
  rw [StartTheProfiler_eq, StopTheProfiler_eq]
  simp [hcap.1, hcap.2, ReleaseProfile, State.emit]


theorem eventsSince_self (s : State) : eventsSince s s = [] := by
  simp [eventsSince]

/-- The calls of a tick on an enabled state when the stop returns no profile. -/
theorem OnGatherDataOnV8Thread_absent_events (env : Env) (s : State) (h : s.enabled = true)
    (hn : (StopTheProfiler env s).1 = none) :
    eventsSince s (OnGatherDataOnV8Thread env s)
      = if env.isolate = false then
          [.logMessage .debug "[profiling_node] No V8 Isolate found",
           .logMessage .debug "[profiling_node] No method profile found",
           .logMessage .debug "[profiling_node] No V8 Isolate found"]
        else if env.cpuProfiler = false then
          [.logMessage .debug "[profiling_node] No CpuProfiler found",
           .logMessage .debug "[profiling_node] No method profile found",
           .logMessage .debug "[profiling_node] No CpuProfiler found"]
        else
          [.StopProfiling "NodeProfPlugin",
           .logMessage .debug "[profiling_node] No method profile found",
           .StartProfiling "NodeProfPlugin" false] := by
  apply eventsSince_of_trace
  rw [OnGatherDataOnV8Thread_absent_state env s h hn]

/-- The calls of a tick on an enabled state when the stop returns a profile. -/
theorem OnGatherDataOnV8Thread_tree_events (env : Env) (s : State) (profile : CpuProfile)
    (blob : String) (k : Int) (h : s.enabled = true)
    (hp : (StopTheProfiler env s).1 = some profile)
    (hb : ConstructData profile env.realTime s.nextid = (some blob, k)) :
    eventsSince s (OnGatherDataOnV8Thread env s)
      = [.StopProfiling "NodeProfPlugin", .Delete, .StartProfiling "NodeProfPlugin" false,
         .agentPushData
           { persistent := false, provID := s.provid, sourceID := 0,
             size := blob.length % 2 ^ 32, data := blob }] := by
  apply eventsSince_of_trace
  rw [OnGatherDataOnV8Thread_tree_state env s profile blob k h hp hb]

theorem capable_of_stop_some {env : Env} {s : State} {profile : CpuProfile}
    (hp : (StopTheProfiler env s).1 = some profile) :
    env.capable = true ∧ env.stopped = some profile := by
  rw [StopTheProfiler_result] at hp
  by_cases hc : env.capable = true
  · rw [if_pos hc] at hp
    exact ⟨hc, hp⟩
  · rw [if_neg hc] at hp
    exact absurd hp (by simp)

theorem ConstructData_some (profile : CpuProfile) (realTime : Nat) (nextid : Int) :
    ∃ blob, ConstructData profile realTime nextid
      = (some blob, nextid + nodeCount profile.GetTopDownRoot) :=
  ⟨_, ConstructData_eq profile realTime nextid⟩

/-! ## Claims about the timer tick -/

/-- C11: a tick on an enabled state runs `StopTheProfiler` once and then `StartTheProfiler`
once, whether the stop returns a profile or not and whatever the serializer produces: with an
isolate and a profiler that is one `StopProfiling` call followed by one `StartProfiling` call,
without them neither call is made. The enabled flag and the armed state of the timer are
unchanged, and the timer is neither started nor stopped. -/
theorem C11_tick_stops_then_starts (env : Env) (s : State) (h : s.enabled = true) :
    (OnGatherDataOnV8Thread env s).enabled = true
      ∧ (OnGatherDataOnV8Thread env s).timerArmed = s.timerArmed
      ∧ ((StopTheProfiler env s).1 = none →
          OnGatherDataOnV8Thread env s
            = StartTheProfiler env
                ((StopTheProfiler env s).2.emit
                  (.logMessage .debug "[profiling_node] No method profile found")))
      ∧ (∀ profile : CpuProfile, (StopTheProfiler env s).1 = some profile →
          ∃ (blob : String) (k : Int),
            ConstructData profile env.realTime s.nextid = (some blob, k)
            ∧ OnGatherDataOnV8Thread env s
              = (StartTheProfiler env
                  (ReleaseProfile (some profile)
                    { (StopTheProfiler env s).2 with nextid := k })).emit
                  (.agentPushData
                    { persistent := false, provID := s.provid, sourceID := 0,
                      size := blob.length % 2 ^ 32, data := blob }))
      ∧ (eventsSince s (OnGatherDataOnV8Thread env s)).filter
            (fun e => e.isStopProfiling || e.isStartProfiling)
          = (if env.capable = true then
              [.StopProfiling "NodeProfPlugin", .StartProfiling "NodeProfPlugin" false]
            else [])
      ∧ (eventsSince s (OnGatherDataOnV8Thread env s)).countP Event.isTimerStart = 0
      ∧ (eventsSince s (OnGatherDataOnV8Thread env s)).countP Event.isTimerStop = 0 := by
  cases hst : (StopTheProfiler env s).1 with
  | none =>
    rw [OnGatherDataOnV8Thread_absent_events env s h hst]
    refine ⟨?_, ?_, fun _ => OnGatherDataOnV8Thread_absent env s h hst, ?_, ?_, ?_, ?_⟩
    · rw [OnGatherDataOnV8Thread_absent_state env s h hst]
      exact h
    · rw [OnGatherDataOnV8Thread_absent_state env s h hst]
    · intro profile hp
      exact absurd hp (by simp)
    all_goals
      cases hi : env.isolate <;> cases hc : env.cpuProfiler <;>
        simp [Env.capable, hi, hc, Event.isStopProfiling, Event.isStartProfiling,
          Event.isTimerStart, Event.isTimerStop]
  | some profile =>
    obtain ⟨blob, hb⟩ := ConstructData_some profile env.realTime s.nextid
    have hcap := (capable_of_stop_some hst).1
    rw [OnGatherDataOnV8Thread_tree_events env s profile blob _ h hst hb]
    refine ⟨?_, ?_, fun hn => absurd hn (by simp), ?_, ?_, rfl, rfl⟩
    · rw [OnGatherDataOnV8Thread_tree_state env s profile blob _ h hst hb]
      exact h
    · rw [OnGatherDataOnV8Thread_tree_state env s profile blob _ h hst hb]
    · intro profile' hp'
      have e : profile' = profile := by
        simp only [Option.some.injEq] at hp'
        exact hp'.symm
      subst e
      exact ⟨blob, _, hb, OnGatherDataOnV8Thread_tree env s profile' blob _ h hst hb⟩
    · rw [if_pos hcap]
      rfl

/-- C11 (witness): ticks on the state reached by starting the plugin enabled, one whose stop
returns the example profile and one whose stop returns nothing. -/
theorem C11_tick_stops_then_starts_witness :
    startedEnabled.enabled = true
      ∧ (StopTheProfiler (envReturning 5 none) startedEnabled).1 = none
      ∧ (eventsSince startedEnabled
            (OnGatherDataOnV8Thread (envReturning 5 (some exampleProfile)) startedEnabled)).filter
            (fun e => e.isStopProfiling || e.isStartProfiling)
          = [.StopProfiling "NodeProfPlugin", .StartProfiling "NodeProfPlugin" false]
      ∧ OnGatherDataOnV8Thread (envReturning 5 none) startedEnabled
          = StartTheProfiler (envReturning 5 none)
              ((StopTheProfiler (envReturning 5 none) startedEnabled).2.emit
                (.logMessage .debug "[profiling_node] No method profile found"))
      ∧ ∃ (blob : String) (k : Int),
          ConstructData exampleProfile 5 startedEnabled.nextid = (some blob, k)
          ∧ OnGatherDataOnV8Thread (envReturning 5 (some exampleProfile)) startedEnabled
            = (StartTheProfiler (envReturning 5 (some exampleProfile))
                (ReleaseProfile (some exampleProfile)
                  { (StopTheProfiler (envReturning 5 (some exampleProfile)) startedEnabled).2
                    with nextid := k })).emit
                (.agentPushData
                  { persistent := false, provID := startedEnabled.provid, sourceID := 0,
                    size := blob.length % 2 ^ 32, data := blob }) :=
  ⟨by decide, rfl,
   (C11_tick_stops_then_starts (envReturning 5 (some exampleProfile)) startedEnabled
      (by decide)).2.2.2.2.1,
   (C11_tick_stops_then_starts (envReturning 5 none) startedEnabled (by decide)).2.2.1 rfl,
   (C11_tick_stops_then_starts (envReturning 5 (some exampleProfile)) startedEnabled
      (by decide)).2.2.2.1 exampleProfile rfl⟩


/-! ## Facts about start-up and shutdown -/

/-- The state `ibmras_monitoring_plugin_start` leaves when the plugin is enabled. -/
theorem plugin_start_enabled_state (env : Env) (s : State) (h : s.enabled = true) :
    (ibmras_monitoring_plugin_start env s).2
      = { s with
          timerArmed := some (5000, 5000),
          timerClosed := false,
          sessionActive := if env.capable = true then true else s.sessionActive,
          trace := s.trace ++
            ([.logMessage .fine "[profiling_node] Starting enabled",
              .logMessage .debug "[profiling_node] Publishing config",
              .logMessage .debug
                "[profiling_node] Sending config message [profiling_node_subsystem=on]",
              .agentSendMessage "configuration/profiling_node" 27 "profiling_node_subsystem=on",
              .uv_timer_init, .uv_unref,
              .logMessage .debug "[profiling_node] Start profiling"]
            ++ (if env.isolate = false then
                  [.logMessage .debug "[profiling_node] No V8 Isolate found"]
                else if env.cpuProfiler = false then
                  [.logMessage .debug "[profiling_node] No CpuProfiler found"]
                else [.StartProfiling "NodeProfPlugin" false])
            ++ [.logMessage .debug "[profiling_node] Starting timer",
                .uv_timer_start 5000 5000]) } := by
  unfold ibmras_monitoring_plugin_start
  simp only [h, if_true]
  rw [publishEnabled_on _ (by simp [State.emit, h])]
  simp only [State.emit, h, if_true, PROFILING_INTERVAL, uv_timer_start]
  rw [StartTheProfiler_eq]
  cases hi : env.isolate <;> cases hc : env.cpuProfiler <;> simp [Env.capable, hi, hc]

/-- The state `ibmras_monitoring_plugin_start` leaves when the plugin is disabled. -/
theorem plugin_start_disabled_state (env : Env) (s : State) (h : s.enabled = false) :
    (ibmras_monitoring_plugin_start env s).2
      = { s with
          timerArmed := none,
          timerClosed := false,
          trace := s.trace ++
            [.logMessage .fine "[profiling_node] Starting disabled",
             .logMessage .debug "[profiling_node] Publishing config",
             .logMessage .debug
               "[profiling_node] Sending config message [profiling_node_subsystem=off]",
             .agentSendMessage "configuration/profiling_node" 28 "profiling_node_subsystem=off",
             .uv_timer_init, .uv_unref] } := by
  unfold ibmras_monitoring_plugin_start
  simp only [h, Bool.false_eq_true, if_false]
  rw [publishEnabled_off _ (by simp [State.emit, h])]
  simp [State.emit, h]

/-- The state `ibmras_monitoring_plugin_stop` leaves when the plugin is enabled. -/
theorem plugin_stop_enabled_state (env : Env) (s : State) (h : s.enabled = true) :
    (ibmras_monitoring_plugin_stop env s).2
      = { s with
          enabled := false,
          timerArmed := none,
          timerClosed := true,
          sessionActive := if env.capable = true then false else s.sessionActive,
          trace := s.trace ++
            ([.logMessage .fine "[profiling_node] Stopping", .uv_timer_stop, .uv_close .timer]
            ++ (if env.isolate = false then
                  [.logMessage .debug "[profiling_node] No V8 Isolate found"]
                else if env.cpuProfiler = false then
                  [.logMessage .debug "[profiling_node] No CpuProfiler found"]
                else if env.stopped.isSome then [.StopProfiling "NodeProfPlugin", .Delete]
                else [.StopProfiling "NodeProfPlugin"])) } := by
  unfold ibmras_monitoring_plugin_stop
  simp only [State.emit, h, if_true, uv_timer_stop, uv_close]
  rw [StopTheProfiler_eq]
  cases hi : env.isolate <;> cases hc : env.cpuProfiler <;> cases hs : env.stopped <;>
    simp [Env.capable, hi, hc, ReleaseProfile, State.emit]

/-- The state `ibmras_monitoring_plugin_stop` leaves when the plugin is disabled. -/
theorem plugin_stop_disabled_state (env : Env) (s : State) (h : s.enabled = false) :
    (ibmras_monitoring_plugin_stop env s).2
      = { s with trace := s.trace ++ [.logMessage .fine "[profiling_node] Stopping"] } := by
  unfold ibmras_monitoring_plugin_stop
  simp [State.emit, h]

/-- The state registration leaves. -/
theorem registerPushSource_state (enabledProp : String) (provID : Nat) (s : State) :
    (ibmras_monitoring_registerPushSource enabledProp provID s).2
      = { s with
          provid := provID,
          enabled := decide (enabledProp = "on"),
          trace := s.trace ++
            [.getProperty "com.ibm.diagnostics.healthcenter.data.profiling",
             .logMessage .debug "[profiling_node] Registering push sources"] } := by
  simp only [ibmras_monitoring_registerPushSource, State.emit, List.append_assoc,
    List.singleton_append]
  rfl


/-! ## Facts about runs -/

theorem profilerScan_cons (active : Bool) (e : Event) (rest : List Event) :
    profilerScan active (e :: rest)
      = if e.isStartProfiling then (if active then none else profilerScan true rest)
        else if e.isStopProfiling then profilerScan false rest
        else profilerScan active rest := by
  rw [profilerScan]

theorem profilerScan_tail {active : Bool} {e : Event} {rest : List Event} {b : Bool}
    (h : profilerScan active (e :: rest) = some b) : ∃ a, profilerScan a rest = some b := by
  rw [profilerScan_cons] at h
  by_cases h1 : e.isStartProfiling = true
  · rw [if_pos h1] at h
    cases active with
    | true => simp at h
    | false => exact ⟨true, by simpa using h⟩
  · rw [if_neg h1] at h
    by_cases h2 : e.isStopProfiling = true
    · rw [if_pos h2] at h
      exact ⟨false, h⟩
    · rw [if_neg h2] at h
      exact ⟨active, h⟩

theorem profilerScan_append (active : Bool) (l1 l2 : List Event) :
    profilerScan active (l1 ++ l2)
      = (profilerScan active l1).bind (fun b => profilerScan b l2) := by
  induction l1 generalizing active with
  | nil => simp [profilerScan]
  | cons e rest ih =>
    simp only [List.cons_append, profilerScan_cons, ih]
    by_cases h1 : e.isStartProfiling = true
    · cases active <;> simp [h1]
    · by_cases h2 : e.isStopProfiling = true <;> simp [h1, h2]

/-- While a session is running, a `StartProfiling` call accepted by the scan has a
`StopProfiling` call before it. -/
theorem profilerScan_stop_before_start {l : List Event} {b : Bool}
    (h : profilerScan true l = some b) (j : Nat) (e : Event) (hj : l[j]? = some e)
    (he : e.isStartProfiling = true) :
    ∃ (k : Nat) (c : Event), k < j ∧ l[k]? = some c ∧ c.isStopProfiling = true := by
  induction l generalizing j with
  | nil => simp at hj
  | cons x rest ih =>
    rw [profilerScan_cons] at h
    by_cases h1 : x.isStartProfiling = true
    · simp [h1] at h
    · rw [if_neg h1] at h
      cases j with
      | zero =>
        simp only [List.getElem?_cons_zero, Option.some.injEq] at hj
        rw [hj] at h1
        exact absurd he h1
      | succ j' =>
        by_cases h2 : x.isStopProfiling = true
        · exact ⟨0, x, Nat.succ_pos _, List.getElem?_cons_zero, h2⟩
        · rw [if_neg h2] at h
          simp only [List.getElem?_cons_succ] at hj
          obtain ⟨k, c, hk, hc, hs⟩ := ih h j' hj
          exact ⟨k + 1, c, Nat.succ_lt_succ hk, by simpa using hc, hs⟩

/-- A list of calls accepted by the scan has no two starts without a stop between them. -/
theorem NoDoubleStart_of_profilerScan {l : List Event} {a b : Bool}
    (h : profilerScan a l = some b) : NoDoubleStart l := by
  induction l generalizing a with
  | nil =>
    intro i j x y _ hi
    simp at hi
  | cons e rest ih =>
    intro i j x y hij hi hj hx hy
    cases j with
    | zero => exact absurd hij (Nat.not_lt_zero _)
    | succ j' =>
      simp only [List.getElem?_cons_succ] at hj
      cases i with
      | zero =>
        simp only [List.getElem?_cons_zero, Option.some.injEq] at hi
        subst hi
        rw [profilerScan_cons, if_pos hx] at h
        cases a with
        | true => simp at h
        | false =>
          simp only [Bool.false_eq_true, if_false] at h
          obtain ⟨k, c, hk, hc, hs⟩ := profilerScan_stop_before_start h j' y hj hy
          exact ⟨k + 1, c, Nat.succ_pos _, Nat.succ_lt_succ hk, by simpa using hc, hs⟩
      | succ i' =>
        simp only [List.getElem?_cons_succ] at hi
        obtain ⟨a', ha'⟩ := profilerScan_tail h
        obtain ⟨k, c, hk1, hk2, hc, hs⟩ :=
          ih ha' i' j' x y (Nat.lt_of_succ_lt_succ hij) hi hj hx hy
        exact ⟨k + 1, c, Nat.succ_lt_succ hk1, Nat.succ_lt_succ hk2, by simpa using hc, hs⟩


/-- A tick changes neither the enabled flag, nor the armed state of the timer, nor the provider
id. -/
theorem OnGatherDataOnV8Thread_frame (env : Env) (s : State) :
    (OnGatherDataOnV8Thread env s).enabled = s.enabled
      ∧ (OnGatherDataOnV8Thread env s).timerArmed = s.timerArmed
      ∧ (OnGatherDataOnV8Thread env s).provid = s.provid := by
  cases h : s.enabled with
  | false =>
    rw [OnGatherDataOnV8Thread_of_disabled env s h]
    exact ⟨h, rfl, rfl⟩
  | true =>
    cases hst : (StopTheProfiler env s).1 with
    | none =>
      rw [OnGatherDataOnV8Thread_absent_state env s h hst]
      exact ⟨h, rfl, rfl⟩
    | some profile =>
      obtain ⟨blob, hb⟩ := ConstructData_some profile env.realTime s.nextid
      rw [OnGatherDataOnV8Thread_tree_state env s profile blob _ h hst hb]
      exact ⟨h, rfl, rfl⟩

theorem Handler.run_keeps_provid (h : Handler) (s : State) : (h.run s).provid = s.provid := by
  cases h with
  | enable env =>
    cases he : s.enabled with
    | true => rw [Handler.run, enableOnV8Thread_of_enabled env s he]
    | false => rw [Handler.run, enableOnV8Thread_state env s he]
  | disable env =>
    cases he : s.enabled with
    | true => rw [Handler.run, disableOnV8Thread_state env s he]
    | false => rw [Handler.run, disableOnV8Thread_of_disabled env s he]
  | tick env => exact (OnGatherDataOnV8Thread_frame env s).2.2

theorem Op.run_provid (op : Op) (s : State) : (op.run s).provid = s.provid := by
  cases op with
  | handler h => exact Handler.run_keeps_provid h s
  | stop env =>
    cases he : s.enabled with
    | true => rw [Op.run, plugin_stop_enabled_state env s he]
    | false => rw [Op.run, plugin_stop_disabled_state env s he]

theorem runOps_provid (ops : List Op) (s : State) : (runOps ops s).provid = s.provid := by
  induction ops generalizing s with
  | nil => rfl
  | cons op rest ih =>
    simp only [runOps, List.foldl_cons] at ih ⊢
    rw [ih, Op.run_provid]

theorem started_provid (enabledProp : String) (provID : Nat) (env : Env) (s : State) :
    (started enabledProp provID env s).provid = provID := by
  unfold started
  cases he : (ibmras_monitoring_registerPushSource enabledProp provID s).2.enabled with
  | true => rw [plugin_start_enabled_state env _ he, registerPushSource_state]
  | false => rw [plugin_start_disabled_state env _ he, registerPushSource_state]

/-- After start-up the timer is armed exactly when the plugin is enabled. -/
theorem started_timer (enabledProp : String) (provID : Nat) (env : Env) (s : State) :
    (started enabledProp provID env s).timerArmed.isSome
      = (started enabledProp provID env s).enabled := by
  unfold started
  cases he : (ibmras_monitoring_registerPushSource enabledProp provID s).2.enabled with
  | true =>
    rw [plugin_start_enabled_state env _ he]
    exact he.symm
  | false =>
    rw [plugin_start_disabled_state env _ he]
    exact he.symm

/-- Every handler keeps the timer armed exactly when the plugin is enabled. -/
theorem Handler.run_timer (h : Handler) (s : State)
    (hinv : s.timerArmed.isSome = s.enabled) :
    (h.run s).timerArmed.isSome = (h.run s).enabled := by
  cases h with
  | enable env =>
    cases he : s.enabled with
    | true =>
      rw [Handler.run, enableOnV8Thread_of_enabled env s he]
      exact hinv
    | false =>
      rw [Handler.run, enableOnV8Thread_state env s he]
      rfl
  | disable env =>
    cases he : s.enabled with
    | true =>
      rw [Handler.run, disableOnV8Thread_state env s he]
      rfl
    | false =>
      rw [Handler.run, disableOnV8Thread_of_disabled env s he]
      exact hinv
  | tick env =>
    obtain ⟨h1, h2, _⟩ := OnGatherDataOnV8Thread_frame env s
    rw [Handler.run, h1, h2]
    exact hinv

theorem runHandlers_timer (hs : List Handler) (s : State)
    (hinv : s.timerArmed.isSome = s.enabled) :
    (runHandlers hs s).timerArmed.isSome = (runHandlers hs s).enabled := by
  induction hs generalizing s with
  | nil => exact hinv
  | cons h rest ih =>
    simp only [runHandlers, List.foldl_cons] at ih ⊢
    exact ih _ (Handler.run_timer h s hinv)


theorem capable_iff {env : Env} (h : env.capable = true) :
    env.isolate = true ∧ env.cpuProfiler = true := by
  simpa [Env.capable] using h

/-- With the profiler capability, every invocation keeps a session running exactly when the
plugin is enabled, and extends a list of calls accepted by the scan to one accepted by it. -/
theorem Op.run_session (op : Op) (s : State) (hcap : op.env.capable = true)
    (h1 : s.sessionActive = s.enabled)
    (h2 : profilerScan false s.trace = some s.sessionActive) :
    (op.run s).sessionActive = (op.run s).enabled
      ∧ profilerScan false (op.run s).trace = some (op.run s).sessionActive := by
  cases op with
  | handler h =>
    cases h with
    | enable env =>
      obtain ⟨hi, hc⟩ := capable_iff (show env.capable = true from hcap)
      cases he : s.enabled with
      | true =>
        simp only [Op.run, Handler.run]
        rw [enableOnV8Thread_of_enabled env s he]
        exact ⟨h1, h2⟩
      | false =>
        simp only [Op.run, Handler.run]
        rw [enableOnV8Thread_state env s he]
        rw [he] at h1
        simp only [hi, hc, profilerScan_append, h2, h1]
        exact ⟨rfl, rfl⟩
    | disable env =>
      obtain ⟨hi, hc⟩ := capable_iff (show env.capable = true from hcap)
      cases he : s.enabled with
      | true =>
        simp only [Op.run, Handler.run]
        rw [disableOnV8Thread_state env s he]
        rw [he] at h1
        simp only [hi, hc, profilerScan_append, h2, h1]
        cases env.stopped <;> exact ⟨rfl, rfl⟩
      | false =>
        simp only [Op.run, Handler.run]
        rw [disableOnV8Thread_of_disabled env s he]
        exact ⟨h1, h2⟩
    | tick env =>
      obtain ⟨hi, hc⟩ := capable_iff (show env.capable = true from hcap)
      cases he : s.enabled with
      | false =>
        simp only [Op.run, Handler.run]
        rw [OnGatherDataOnV8Thread_of_disabled env s he]
        exact ⟨h1, h2⟩
      | true =>
        rw [he] at h1
        cases hst : (StopTheProfiler env s).1 with
        | none =>
          simp only [Op.run, Handler.run]
          rw [OnGatherDataOnV8Thread_absent_state env s he hst]
          simp only [hi, hc, profilerScan_append, h2, h1]
          exact ⟨by simp [Env.capable, hi, hc, he], by simp [Env.capable, hi, hc]; rfl⟩
        | some profile =>
          obtain ⟨blob, hb⟩ := ConstructData_some profile env.realTime s.nextid
          simp only [Op.run, Handler.run]
          rw [OnGatherDataOnV8Thread_tree_state env s profile blob _ he hst hb]
          simp only [profilerScan_append, h2, h1]
          exact ⟨he.symm, rfl⟩
  | stop env =>
    obtain ⟨hi, hc⟩ := capable_iff (show env.capable = true from hcap)
    cases he : s.enabled with
    | true =>
      simp only [Op.run]
      rw [plugin_stop_enabled_state env s he]
      rw [he] at h1
      simp only [hi, hc, profilerScan_append, h2, h1]
      cases env.stopped <;> exact ⟨by simp [Env.capable, hi, hc], by simp [Env.capable, hi, hc]; rfl⟩
    | false =>
      simp only [Op.run]
      rw [plugin_stop_disabled_state env s he]
      rw [he] at h1
      simp only [profilerScan_append, h2, h1]
      exact ⟨he.symm, rfl⟩


theorem runOps_session (ops : List Op) (s : State)
    (hcap : ∀ op ∈ ops, op.env.capable = true)
    (h1 : s.sessionActive = s.enabled)
    (h2 : profilerScan false s.trace = some s.sessionActive) :
    (runOps ops s).sessionActive = (runOps ops s).enabled
      ∧ profilerScan false (runOps ops s).trace = some (runOps ops s).sessionActive := by
  induction ops generalizing s with
  | nil => exact ⟨h1, h2⟩
  | cons op rest ih =>
    simp only [runOps, List.foldl_cons] at ih ⊢
    obtain ⟨h1', h2'⟩ := Op.run_session op s (hcap op (List.mem_cons_self _ _)) h1 h2
    exact ih _ (fun o ho => hcap o (List.mem_cons_of_mem _ ho)) h1' h2'

/-- With the profiler capability, start-up from the initial state leaves a session running
exactly when the plugin is enabled, after a list of calls accepted by the scan. -/
theorem started_session (enabledProp : String) (provID : Nat) (env : Env)
    (hcap : env.capable = true) :
    (started enabledProp provID env initialState).sessionActive
        = (started enabledProp provID env initialState).enabled
      ∧ profilerScan false (started enabledProp provID env initialState).trace
          = some (started enabledProp provID env initialState).sessionActive := by
  obtain ⟨hi, hc⟩ := capable_iff hcap
  unfold started
  cases he : (ibmras_monitoring_registerPushSource enabledProp provID initialState).2.enabled with
  | true =>
    rw [plugin_start_enabled_state env _ he]
    simp only [hcap, if_true, hi, hc]
    rw [registerPushSource_state] at he ⊢
    simp only at he
    exact ⟨he.symm, rfl⟩
  | false =>
    rw [plugin_start_disabled_state env _ he]
    rw [registerPushSource_state] at he ⊢
    simp only at he
    exact ⟨he.symm, rfl⟩

/-! ## Facts about the id counter across passes -/

theorem counterAfter_eq (passes : List (CpuProfile × Nat)) (nextid : Int) :
    counterAfter passes nextid = nextid + nodesVisited passes := by
  induction passes generalizing nextid with
  | nil => simp [counterAfter, nodesVisited]
  | cons p rest ih =>
    simp only [counterAfter, List.foldl_cons, nodesVisited, List.map_cons, List.sum_cons] at ih ⊢
    rw [ih, ConstructData_eq]
    push_cast
    ring

theorem nodesVisited_append (a b : List (CpuProfile × Nat)) :
    nodesVisited (a ++ b) = nodesVisited a + nodesVisited b := by
  simp [nodesVisited]

theorem nodeCount_pos (t : CpuProfileNode) : 0 < nodeCount t := by
  cases t with
  | mk f s l h cs =>
    rw [nodeCount]
    omega

theorem nodesVisited_eq_zero {passes : List (CpuProfile × Nat)} (h : nodesVisited passes = 0) :
    passes = [] := by
  cases passes with
  | nil => rfl
  | cons p rest =>
    have := nodeCount_pos p.1.GetTopDownRoot
    simp only [nodesVisited, List.map_cons, List.sum_cons] at h
    omega

theorem passIds_eq (earlier : List (CpuProfile × Nat)) (profile : CpuProfile) :
    passIds earlier profile
      = idsFrom (1 + nodesVisited earlier) (nodeCount profile.GetTopDownRoot) := by
  rw [passIds, visitTrace_ids, counterAfter_eq]
  rfl

/-! ## Facts about the printed sample count -/

/-- Below a million the stream prints the count as a plain decimal integer. -/
theorem showDouble_small (c : Nat) (h : c < 10 ^ 6) : showDouble c = toString c := by
  unfold showDouble
  by_cases h0 : c = 0
  · rw [if_pos h0, h0]
    rfl
  · rw [if_neg h0]
    have hl : (Nat.repr c).length ≤ 6 := Nat.repr_length c 6 (by decide) h
    have : (Nat.repr c).length - 1 < 6 := by omega
    simp only [this, if_true]
    rfl


/-! ## Claims about the pushed record, the notifications and the life cycle -/

/-- C12: a tick on an enabled state whose stop returns a tree pushes exactly one record: its
data is the blob `ConstructData` returns for that tree at the current counter, its size is the
length of the blob as a `uint32` (the length itself below `2 ^ 32`), its provider id is
`plugin::provid`, its source id 0 and `persistent` false; a tick whose stop returns nothing
pushes no record. The provider id is the one given at registration, whatever ran since. -/
theorem C12_tick_pushes_blob :
    (∀ (env : Env) (s : State) (profile : CpuProfile), s.enabled = true →
        (StopTheProfiler env s).1 = some profile →
        ∃ blob : String,
          (ConstructData profile env.realTime s.nextid).1 = some blob
          ∧ (eventsSince s (OnGatherDataOnV8Thread env s)).filter Event.isPushData
              = [.agentPushData
                  { data := blob, size := blob.length % 2 ^ 32, provID := s.provid,
                    sourceID := 0, persistent := false }]
          ∧ (blob.length < 2 ^ 32 → blob.length % 2 ^ 32 = blob.length))
      ∧ (∀ (env : Env) (s : State), s.enabled = true → (StopTheProfiler env s).1 = none →
          (eventsSince s (OnGatherDataOnV8Thread env s)).filter Event.isPushData = [])
      ∧ (∀ (enabledProp : String) (provID : Nat) (env : Env) (s : State) (ops : List Op),
          (runOps ops (started enabledProp provID env s)).provid = provID) := by
  refine ⟨?_, ?_, ?_⟩
  · intro env s profile h hp
    obtain ⟨blob, hb⟩ := ConstructData_some profile env.realTime s.nextid
    refine ⟨blob, by rw [hb], ?_, fun hlt => Nat.mod_eq_of_lt hlt⟩
    rw [OnGatherDataOnV8Thread_tree_events env s profile blob _ h hp hb]
    rfl
  · intro env s h hn
    rw [OnGatherDataOnV8Thread_absent_events env s h hn]
    cases hi : env.isolate <;> cases hc : env.cpuProfiler <;> simp [Event.isPushData]
  · intro enabledProp provID env s ops
    rw [runOps_provid, started_provid]

/-- C12 (witness): ticks on the state reached by starting the plugin enabled with provider
id 7, one whose stop returns the example profile and one whose stop returns nothing. -/
theorem C12_tick_pushes_blob_witness :
    (startedEnabled.enabled = true
        ∧ (StopTheProfiler (envReturning 1700000000000 (some exampleProfile)) startedEnabled).1
            = some exampleProfile
        ∧ ∃ blob : String,
            (ConstructData exampleProfile 1700000000000 startedEnabled.nextid).1 = some blob
            ∧ (eventsSince startedEnabled
                (OnGatherDataOnV8Thread (envReturning 1700000000000 (some exampleProfile))
                  startedEnabled)).filter Event.isPushData
              = [.agentPushData
                  { data := blob, size := blob.length % 2 ^ 32, provID := startedEnabled.provid,
                    sourceID := 0, persistent := false }]
            ∧ (blob.length < 2 ^ 32 → blob.length % 2 ^ 32 = blob.length))
      ∧ (startedEnabled.enabled = true
        ∧ (StopTheProfiler (envReturning 1700000000000 none) startedEnabled).1 = none
        ∧ (eventsSince startedEnabled
            (OnGatherDataOnV8Thread (envReturning 1700000000000 none)
              startedEnabled)).filter Event.isPushData = []) :=
  ⟨⟨by decide, rfl,
    C12_tick_pushes_blob.1 (envReturning 1700000000000 (some exampleProfile)) startedEnabled
      exampleProfile (by decide) rfl⟩,
   ⟨by decide, rfl,
    C12_tick_pushes_blob.2.1 (envReturning 1700000000000 none) startedEnabled (by decide) rfl⟩⟩

/-- C13 (as amended): the enable handler, when it changes the flag, sends exactly one message
on topic `configuration/profiling_node` with body `profiling_node_subsystem=on`; the disable
handler, when it changes the flag, sends exactly one with body `profiling_node_subsystem=off`;
`ibmras_monitoring_plugin_start` leaves the flag as it is and sends exactly one, with the body
for the current value; a tick never changes the flag; `ibmras_monitoring_plugin_stop` on an
enabled state clears the flag and sends no message. -/
theorem C13_notifications :
    (∀ (env : Env) (s : State), s.enabled = false →
        (enableOnV8Thread env s).enabled = true
        ∧ (eventsSince s (enableOnV8Thread env s)).filter Event.isSendMessage
            = [.agentSendMessage "configuration/profiling_node" 27
                "profiling_node_subsystem=on"])
      ∧ (∀ (env : Env) (s : State), s.enabled = true →
        (disableOnV8Thread env s).enabled = false
        ∧ (eventsSince s (disableOnV8Thread env s)).filter Event.isSendMessage
            = [.agentSendMessage "configuration/profiling_node" 28
                "profiling_node_subsystem=off"])
      ∧ (∀ (env : Env) (s : State),
        (ibmras_monitoring_plugin_start env s).2.enabled = s.enabled
        ∧ (eventsSince s (ibmras_monitoring_plugin_start env s).2).filter Event.isSendMessage
            = [if s.enabled = true then
                .agentSendMessage "configuration/profiling_node" 27 "profiling_node_subsystem=on"
              else
                .agentSendMessage "configuration/profiling_node" 28
                  "profiling_node_subsystem=off"])
      ∧ (∀ (env : Env) (s : State), (OnGatherDataOnV8Thread env s).enabled = s.enabled)
      ∧ (∀ (env : Env) (s : State), s.enabled = true →
        (ibmras_monitoring_plugin_stop env s).2.enabled = false
        ∧ (eventsSince s (ibmras_monitoring_plugin_stop env s).2).filter Event.isSendMessage
            = []) := by
  refine ⟨?_, ?_, ?_, fun env s => (OnGatherDataOnV8Thread_frame env s).1, ?_⟩
  · intro env s h
    rw [enableOnV8Thread_events env s h]
    refine ⟨by rw [enableOnV8Thread_state env s h], ?_⟩
    cases hi : env.isolate <;> cases hc : env.cpuProfiler <;> simp [Event.isSendMessage]
  · intro env s h
    rw [disableOnV8Thread_events env s h]
    refine ⟨by rw [disableOnV8Thread_state env s h], ?_⟩
    cases hi : env.isolate <;> cases hc : env.cpuProfiler <;> cases hs : env.stopped <;>
      simp [Event.isSendMessage]
  · intro env s
    cases he : s.enabled with
    | true =>
      rw [plugin_start_enabled_state env s he]
      refine ⟨he, ?_⟩
      rw [eventsSince_of_trace rfl]
      cases hi : env.isolate <;> cases hc : env.cpuProfiler <;> simp [Event.isSendMessage]
    | false =>
      rw [plugin_start_disabled_state env s he]
      refine ⟨he, ?_⟩
      rw [eventsSince_of_trace rfl]
      simp [Event.isSendMessage]
  · intro env s h
    rw [plugin_stop_enabled_state env s h]
    refine ⟨rfl, ?_⟩
    rw [eventsSince_of_trace rfl]
    cases hi : env.isolate <;> cases hc : env.cpuProfiler <;> cases hs : env.stopped <;>
      simp [Event.isSendMessage]

/-- C13 (witness): the handlers and the entry points on the states reached by start-up. -/
theorem C13_notifications_witness :
    (startedDisabled.enabled = false
        ∧ (eventsSince startedDisabled
            (enableOnV8Thread (envReturning 0 none) startedDisabled)).filter Event.isSendMessage
          = [.agentSendMessage "configuration/profiling_node" 27 "profiling_node_subsystem=on"])
      ∧ (startedEnabled.enabled = true
        ∧ (eventsSince startedEnabled
            (disableOnV8Thread (envReturning 0 none) startedEnabled)).filter Event.isSendMessage
          = [.agentSendMessage "configuration/profiling_node" 28 "profiling_node_subsystem=off"])
      ∧ (startedEnabled.enabled = true
        ∧ (eventsSince startedEnabled
            (ibmras_monitoring_plugin_stop (envReturning 0 none) startedEnabled).2).filter
            Event.isSendMessage = []) :=
  ⟨⟨by decide, (C13_notifications.1 (envReturning 0 none) startedDisabled (by decide)).2⟩,
   ⟨by decide, (C13_notifications.2.1 (envReturning 0 none) startedEnabled (by decide)).2⟩,
   ⟨by decide, (C13_notifications.2.2.2.2 (envReturning 0 none) startedEnabled (by decide)).2⟩⟩

/-- C13 (counterexample): `ibmras_monitoring_plugin_stop` on the state reached by starting the
plugin enabled changes the flag from true to false and sends no message. -/
theorem C13_plugin_stop_sends_nothing :
    startedEnabled.enabled = true
      ∧ (ibmras_monitoring_plugin_stop (envReturning 0 (some exampleProfile))
          startedEnabled).2.enabled = false
      ∧ eventsSince startedEnabled
          (ibmras_monitoring_plugin_stop (envReturning 0 (some exampleProfile)) startedEnabled).2
        = [.logMessage .fine "[profiling_node] Stopping", .uv_timer_stop, .uv_close .timer,
           .StopProfiling "NodeProfPlugin", .Delete]
      ∧ (eventsSince startedEnabled
          (ibmras_monitoring_plugin_stop (envReturning 0 (some exampleProfile))
            startedEnabled).2).countP Event.isSendMessage = 0 := by
  decide!

/-- C14 (the code at the failing input): `ibmras_monitoring_plugin_stop` on a started but
disabled plugin only logs: the timer handle created by `ibmras_monitoring_plugin_start` is not
closed, neither when the timer was never armed nor when it was armed and disarmed again. -/
theorem C14_disabled_stop_leaves_timer_open :
    startedDisabled.enabled = false
      ∧ startedDisabled.timerArmed = none
      ∧ startedDisabled.trace.countP (fun e => e == .uv_timer_init) = 1
      ∧ startedDisabled.trace.countP Event.isTimerStart = 0
      ∧ eventsSince startedDisabled
          (ibmras_monitoring_plugin_stop (envReturning 0 none) startedDisabled).2
        = [.logMessage .fine "[profiling_node] Stopping"]
      ∧ (ibmras_monitoring_plugin_stop (envReturning 0 none) startedDisabled).2.timerClosed
        = false
      ∧ (ibmras_monitoring_plugin_stop (envReturning 0 none)
          (disableOnV8Thread (envReturning 0 none) startedEnabled)).2.timerClosed = false
      ∧ (ibmras_monitoring_plugin_stop (envReturning 0 none)
          (disableOnV8Thread (envReturning 0 none) startedEnabled)).2.trace.countP
            (fun e => e == .uv_close .timer) = 0
      ∧ (ibmras_monitoring_plugin_stop (envReturning 0 none) startedEnabled).2.timerClosed
        = true := by
  decide!


theorem exampleOps_capable : ∀ op ∈ exampleOps, op.env.capable = true := by
  intro op h
  simp only [exampleOps, List.mem_cons, List.mem_singleton, List.not_mem_nil, or_false] at h
  rcases h with rfl | rfl | rfl | rfl | rfl | rfl | rfl <;> rfl

/-- C15: from the state left by registration and `ibmras_monitoring_plugin_start`, whatever
the property value, the provider id, the earlier state and the environments, after every finite
sequence of enable-handler, disable-handler and tick invocations the timer is armed if and only
if the plugin is enabled. -/
theorem C15_timer_armed_iff_enabled (enabledProp : String) (provID : Nat) (env : Env)
    (s : State) (hs : List Handler) :
    ((runHandlers hs (started enabledProp provID env s)).timerArmed.isSome = true
      ↔ (runHandlers hs (started enabledProp provID env s)).enabled = true) := by
  rw [runHandlers_timer hs _ (started_timer enabledProp provID env s)]

/-- C16: when every environment offers an isolate with a profiler, from the initial state,
registration and `ibmras_monitoring_plugin_start`, after every finite sequence of
enable-handler, disable-handler, tick and `ibmras_monitoring_plugin_stop` invocations the calls
made so far contain no two `StartProfiling` without a `StopProfiling` between them, and a
session is running if and only if the plugin is enabled. -/
theorem C16_no_double_start (enabledProp : String) (provID : Nat) (env : Env) (ops : List Op)
    (h0 : env.capable = true) (hops : ∀ op ∈ ops, op.env.capable = true) :
    NoDoubleStart (runOps ops (started enabledProp provID env initialState)).trace
      ∧ ((runOps ops (started enabledProp provID env initialState)).sessionActive = true
        ↔ (runOps ops (started enabledProp provID env initialState)).enabled = true) := by
  obtain ⟨h1, h2⟩ := started_session enabledProp provID env h0
  obtain ⟨h3, h4⟩ := runOps_session ops _ hops h1 h2
  exact ⟨NoDoubleStart_of_profilerScan h4, by rw [h3]⟩

/-- C16 (witness): start disabled, then the example run. -/
theorem C16_no_double_start_witness :
    (envReturning 0 none).capable = true
      ∧ (∀ op ∈ exampleOps, op.env.capable = true)
      ∧ NoDoubleStart (runOps exampleOps (started "off" 7 (envReturning 0 none) initialState)).trace
      ∧ ((runOps exampleOps (started "off" 7 (envReturning 0 none) initialState)).sessionActive
            = true
        ↔ (runOps exampleOps (started "off" 7 (envReturning 0 none) initialState)).enabled
            = true) :=
  ⟨rfl, exampleOps_capable,
   C16_no_double_start "off" 7 (envReturning 0 none) exampleOps rfl exampleOps_capable⟩

/-- C17: after registration the plugin is enabled exactly when the property value is `on`.
`ibmras_monitoring_plugin_start` then, if enabled, runs `StartTheProfiler` once (one
`StartProfiling` call when an isolate and a profiler exist) and arms the timer with delay and
period 5000 ms; if disabled it does neither: no `StartProfiling` call, the timer not armed. -/
theorem C17_startup (enabledProp : String) (provID : Nat) (env : Env) (s : State) :
    ((ibmras_monitoring_registerPushSource enabledProp provID s).2.enabled = true
        ↔ enabledProp = "on")
      ∧ (enabledProp = "on" →
          (started enabledProp provID env s).enabled = true
          ∧ (started enabledProp provID env s).timerArmed = some (5000, 5000)
          ∧ (env.capable = true → (started enabledProp provID env s).sessionActive = true)
          ∧ eventsSince (ibmras_monitoring_registerPushSource enabledProp provID s).2
              (started enabledProp provID env s)
            = [.logMessage .fine "[profiling_node] Starting enabled",
                .logMessage .debug "[profiling_node] Publishing config",
                .logMessage .debug
                  "[profiling_node] Sending config message [profiling_node_subsystem=on]",
                .agentSendMessage "configuration/profiling_node" 27
                  "profiling_node_subsystem=on",
                .uv_timer_init, .uv_unref,
                .logMessage .debug "[profiling_node] Start profiling"]
              ++ (if env.isolate = false then
                    [.logMessage .debug "[profiling_node] No V8 Isolate found"]
                  else if env.cpuProfiler = false then
                    [.logMessage .debug "[profiling_node] No CpuProfiler found"]
                  else [.StartProfiling "NodeProfPlugin" false])
              ++ [.logMessage .debug "[profiling_node] Starting timer",
                  .uv_timer_start 5000 5000])
      ∧ (enabledProp ≠ "on" →
          (started enabledProp provID env s).enabled = false
          ∧ (started enabledProp provID env s).timerArmed = none
          ∧ (started enabledProp provID env s).sessionActive = s.sessionActive
          ∧ eventsSince (ibmras_monitoring_registerPushSource enabledProp provID s).2
              (started enabledProp provID env s)
            = [.logMessage .fine "[profiling_node] Starting disabled",
               .logMessage .debug "[profiling_node] Publishing config",
               .logMessage .debug
                 "[profiling_node] Sending config message [profiling_node_subsystem=off]",
               .agentSendMessage "configuration/profiling_node" 28
                 "profiling_node_subsystem=off",
               .uv_timer_init, .uv_unref]) := by
  have hreg : (ibmras_monitoring_registerPushSource enabledProp provID s).2.enabled
      = decide (enabledProp = "on") := by
    rw [registerPushSource_state]
  refine ⟨by rw [hreg]; simp, ?_, ?_⟩
  · intro hon
    have he : (ibmras_monitoring_registerPushSource enabledProp provID s).2.enabled = true := by
      rw [hreg]
      simpa using hon
    unfold started
    rw [eventsSince_of_trace
      (show (ibmras_monitoring_plugin_start env _).2.trace = _ ++ _ by
        rw [plugin_start_enabled_state env _ he])]
    rw [plugin_start_enabled_state env _ he]
    refine ⟨he, rfl, ?_, rfl⟩
    intro hcap
    simp only [hcap, if_true]
  · intro hoff
    have he : (ibmras_monitoring_registerPushSource enabledProp provID s).2.enabled = false := by
      rw [hreg]
      simpa using hoff
    unfold started
    rw [eventsSince_of_trace
      (show (ibmras_monitoring_plugin_start env _).2.trace = _ ++ _ by
        rw [plugin_start_disabled_state env _ he])]
    rw [plugin_start_disabled_state env _ he]
    refine ⟨he, rfl, ?_, rfl⟩
    rw [registerPushSource_state]

/-- C17 (witness): start-up with the property values `on` and the empty value. -/
theorem C17_startup_witness :
    ("on" = "on" ∧ (started "on" 7 (envReturning 0 none) initialState).enabled = true
        ∧ (started "on" 7 (envReturning 0 none) initialState).timerArmed = some (5000, 5000)
        ∧ (started "on" 7 (envReturning 0 none) initialState).sessionActive = true)
      ∧ ("" ≠ "on" ∧ (started "" 7 (envReturning 0 none) initialState).enabled = false
        ∧ (started "" 7 (envReturning 0 none) initialState).timerArmed = none) :=
  ⟨⟨rfl, ((C17_startup "on" 7 (envReturning 0 none) initialState).2.1 rfl).1,
     ((C17_startup "on" 7 (envReturning 0 none) initialState).2.1 rfl).2.1,
     ((C17_startup "on" 7 (envReturning 0 none) initialState).2.1 rfl).2.2.1 rfl⟩,
   ⟨by decide, ((C17_startup "" 7 (envReturning 0 none) initialState).2.2 (by decide)).1,
     ((C17_startup "" 7 (envReturning 0 none) initialState).2.2 (by decide)).2.1⟩⟩


theorem nodesVisited_cons (p : CpuProfile × Nat) (rest : List (CpuProfile × Nat)) :
    nodesVisited (p :: rest) = nodeCount p.1.GetTopDownRoot + nodesVisited rest := by
  simp [nodesVisited]

theorem idsFrom_getElem?_lt (k : Int) {n i : Nat} (h : i < n) :
    (idsFrom k n)[i]? = some (k + i) := by
  simp [idsFrom, List.getElem?_map, List.getElem?_range h]

theorem idsFrom_length (k : Int) (n : Nat) : (idsFrom k n).length = n := by
  simp [idsFrom]

/-! ## Claims about the sample count, the id counter and the disabled tick -/

/-- C18 (the code at the failing input): the self sample count goes through a `double` and is
printed by the stream with its default precision, so a node with 1000000 self samples gets the
last field `1e+06`, and 1234567 is printed as `1.23457e+06`; 999999 is still printed in full. -/
theorem C18_million_samples_in_exponent_form :
    millionNode.GetHitCount = 1000000
      ∧ ConstructNodeData millionNode 1 0 "" = "NodeProfData,Node,1,0,a.js,hot,12,1e+06\n"
      ∧ showDouble 1000000 = "1e+06"
      ∧ showDouble 1234567 = "1.23457e+06"
      ∧ showDouble 999999 = "999999" := by
  decide

/-- C19: the ids continue across the passes of a process. After earlier passes that visited M
nodes in total the counter is at M + 1; the next pass hands the node it visits i-th in pre-order
(counted from 1) the id M + i and leaves the counter at M + N + 1; its root has id 1 only when
no pass came before; an id of one pass never occurs in a later pass; in the plugin the counter
moves only in a tick that serializes a tree, by the number of nodes of that tree. -/
theorem C19_ids_across_passes (earlier : List (CpuProfile × Nat)) (profile : CpuProfile)
    (realTime : Nat) :
    counterAfter earlier initialState.nextid = (nodesVisited earlier : Int) + 1
      ∧ ConstructData profile realTime (counterAfter earlier initialState.nextid)
          = (some ("NodeProfData,Start," ++ showUnsigned realTime ++ "\n"
                ++ String.join ((visitTrace profile.GetTopDownRoot [] 0
                      (counterAfter earlier initialState.nextid)).map
                    (fun c => ConstructNodeData c.node c.id c.parentId ""))
                ++ "NodeProfData,End\n"),
             (nodesVisited earlier : Int) + nodeCount profile.GetTopDownRoot + 1)
      ∧ (visitTrace profile.GetTopDownRoot [] 0
            (counterAfter earlier initialState.nextid)).map Call.node
          = preorder profile.GetTopDownRoot
      ∧ (passIds earlier profile).length = nodeCount profile.GetTopDownRoot
      ∧ (∀ i : Nat, i < nodeCount profile.GetTopDownRoot →
          (passIds earlier profile)[i]? = some ((nodesVisited earlier : Int) + ((i : Int) + 1)))
      ∧ ((passIds earlier profile).head? = some 1 ↔ earlier = [])
      ∧ (∀ (between : List (CpuProfile × Nat)) (later : CpuProfile) (x : Int),
          x ∈ passIds earlier profile →
          x ∉ passIds (earlier ++ (profile, realTime) :: between) later)
      ∧ (∀ (env : Env) (s : State) (tree : CpuProfile), s.enabled = true →
          (StopTheProfiler env s).1 = some tree →
          (OnGatherDataOnV8Thread env s).nextid = s.nextid + nodeCount tree.GetTopDownRoot)
      ∧ (∀ (env : Env) (s : State), (StopTheProfiler env s).1 = none →
          (OnGatherDataOnV8Thread env s).nextid = s.nextid) := by
  have hc : counterAfter earlier initialState.nextid = (nodesVisited earlier : Int) + 1 := by
    rw [counterAfter_eq]
    simp only [initialState]
    ring
  refine ⟨hc, ?_, visitTrace_nodes _ _ _ _, ?_, ?_, ?_, ?_, ?_, ?_⟩
  · rw [ConstructData_eq, hc]
    congr 1
    ring
  · rw [passIds_eq, idsFrom_length]
  · intro i hi
    rw [passIds_eq, idsFrom_getElem?_lt _ hi]
    congr 1
    ring
  · have hpos := nodeCount_pos profile.GetTopDownRoot
    have h0 := idsFrom_getElem?_lt (1 + (nodesVisited earlier : Int)) hpos
    rw [passIds_eq, List.head?_eq_getElem?, h0]
    constructor
    · intro h
      simp only [Option.some.injEq] at h
      apply nodesVisited_eq_zero
      omega
    · intro h
      rw [h]
      rfl
  · intro between later x hx hx'
    rw [passIds_eq] at hx hx'
    have b1 := mem_idsFrom hx
    have b2 := mem_idsFrom hx'
    rw [nodesVisited_append, nodesVisited_cons] at b2
    push_cast at b2
    omega
  · intro env s tree h hp
    obtain ⟨blob, hb⟩ := ConstructData_some tree env.realTime s.nextid
    rw [OnGatherDataOnV8Thread_tree_state env s tree blob _ h hp hb]
  · intro env s hn
    cases he : s.enabled with
    | false => rw [OnGatherDataOnV8Thread_of_disabled env s he]
    | true => rw [OnGatherDataOnV8Thread_absent_state env s he hn]

/-- C19 (witness): serializing the two-node example profile after one earlier pass over it. -/
theorem C19_ids_across_passes_witness :
    (1 < nodeCount exampleProfile.GetTopDownRoot
        ∧ (passIds [(exampleProfile, 1700000000000)] exampleProfile)[1]?
            = some ((nodesVisited [(exampleProfile, 1700000000000)] : Int) + ((1 : Nat) + 1)))
      ∧ ((3 : Int) ∈ passIds [(exampleProfile, 1700000000000)] exampleProfile
        ∧ (3 : Int) ∉ passIds
            ([(exampleProfile, 1700000000000)] ++ (exampleProfile, 1700000005000) :: [])
            exampleProfile)
      ∧ (startedEnabled.enabled = true
        ∧ (StopTheProfiler (envReturning 5 (some exampleProfile)) startedEnabled).1
            = some exampleProfile
        ∧ (OnGatherDataOnV8Thread (envReturning 5 (some exampleProfile)) startedEnabled).nextid
            = startedEnabled.nextid + nodeCount exampleProfile.GetTopDownRoot) :=
  ⟨⟨by decide,
    (C19_ids_across_passes [(exampleProfile, 1700000000000)] exampleProfile
      1700000005000).2.2.2.2.1 1 (by decide)⟩,
   ⟨by decide,
    (C19_ids_across_passes [(exampleProfile, 1700000000000)] exampleProfile
      1700000005000).2.2.2.2.2.2.1 [] exampleProfile 3 (by decide)⟩,
   ⟨by decide, rfl,
    (C19_ids_across_passes [] exampleProfile 0).2.2.2.2.2.2.2.1
      (envReturning 5 (some exampleProfile)) startedEnabled exampleProfile (by decide) rfl⟩⟩

/-- C20: a tick on a disabled state returns the state as it was: no call is made (no stop, no
start, no serialization, no push), and the enabled flag and the id counter are unchanged. -/
theorem C20_disabled_tick_is_noop (env : Env) (s : State) (h : s.enabled = false) :
    OnGatherDataOnV8Thread env s = s
      ∧ eventsSince s (OnGatherDataOnV8Thread env s) = []
      ∧ (OnGatherDataOnV8Thread env s).enabled = false
      ∧ (OnGatherDataOnV8Thread env s).nextid = s.nextid
      ∧ (OnGatherDataOnV8Thread env s).sessionActive = s.sessionActive := by
  rw [OnGatherDataOnV8Thread_of_disabled env s h]
  exact ⟨rfl, eventsSince_self s, h, rfl, rfl⟩

/-- C20 (witness): a tick, whose stop would return the example profile, on the state reached by
starting the plugin disabled. -/
theorem C20_disabled_tick_is_noop_witness :
    startedDisabled.enabled = false
      ∧ OnGatherDataOnV8Thread (envReturning 5 (some exampleProfile)) startedDisabled
          = startedDisabled :=
  ⟨by decide,
   (C20_disabled_tick_is_noop (envReturning 5 (some exampleProfile)) startedDisabled
      (by decide)).1⟩


/-! ## Facts about the serializer with the standard allocator -/

theorem Throwing_ConstructNodeData_ok (node : CpuProfileNode) (id parentId : Int)
    (result : String) (h : namesExtract node) :
    Throwing.ConstructNodeData node id parentId result
      = .ok (ConstructNodeData node id parentId result) := by
  obtain ⟨h1, h2⟩ := h
  simp [Throwing.ConstructNodeData, Throwing.ExtractV8String, ConstructNodeData,
    ExtractV8String, h1, h2]

theorem Throwing_ConstructNodeData_error (node : CpuProfileNode) (id parentId : Int)
    (result : String) (h : allocationFails node) :
    Throwing.ConstructNodeData node id parentId result = .error .bad_alloc := by
  unfold Throwing.ConstructNodeData Throwing.ExtractV8String
  cases hf : node.GetFunctionName.allocFails with
  | true => simp
  | false =>
    rcases h with h | h
    · rw [hf] at h
      exact absurd h (by simp)
    · simp [h]

theorem namesExtract_or_allocationFails (n : CpuProfileNode) :
    namesExtract n ∨ allocationFails n := by
  unfold namesExtract allocationFails
  cases n.GetFunctionName.allocFails <;> cases n.GetScriptResourceName.allocFails <;> simp

mutual
theorem Throwing_visit_ok (t : CpuProfileNode) (parentId nextid : Int) (result : String)
    (h : ∀ n ∈ preorder t, namesExtract n) :
    Throwing.visit Throwing.ConstructNodeData t parentId nextid result
      = .ok (visit ConstructNodeData t parentId nextid result) := by
  match t with
  | .mk f s l hc cs =>
    have h0 : namesExtract (.mk f s l hc cs) := h _ (by simp [preorder])
    have hcs : ∀ n ∈ preorderList cs, namesExtract n := fun n hn =>
      h n (by simp [preorder, hn])
    simp only [Throwing.visit, visit, Throwing_ConstructNodeData_ok _ _ _ _ h0]
    exact Throwing_visitChildren_ok cs nextid (nextid + 1) _ hcs
theorem Throwing_visitChildren_ok (cs : List CpuProfileNode) (id nextid : Int)
    (result : String) (h : ∀ n ∈ preorderList cs, namesExtract n) :
    Throwing.visitChildren Throwing.ConstructNodeData cs id nextid result
      = .ok (visitChildren ConstructNodeData cs id nextid result) := by
  match cs with
  | [] => simp [Throwing.visitChildren, visitChildren]
  | c :: rest =>
    have hc : ∀ n ∈ preorder c, namesExtract n := fun n hn =>
      h n (by simp [preorderList, hn])
    have hrest : ∀ n ∈ preorderList rest, namesExtract n := fun n hn =>
      h n (by simp [preorderList, hn])
    simp only [Throwing.visitChildren, visitChildren, Throwing_visit_ok c id nextid result hc]
    exact Throwing_visitChildren_ok rest id _ _ hrest
end

mutual
theorem Throwing_visit_error (t : CpuProfileNode) (parentId nextid : Int) (result : String)
    (h : ∃ n ∈ preorder t, allocationFails n) :
    Throwing.visit Throwing.ConstructNodeData t parentId nextid result = .error .bad_alloc := by
  match t with
  | .mk f s l hc cs =>
    rcases namesExtract_or_allocationFails (.mk f s l hc cs) with h0 | h0
    · have hcs : ∃ n ∈ preorderList cs, allocationFails n := by
        obtain ⟨n, hn, hf⟩ := h
        simp only [preorder, List.mem_cons] at hn
        rcases hn with rfl | hn
        · exact absurd h0.1 (by
            rcases hf with hf | hf
            · simp [hf]
            · intro _
              exact absurd h0.2 (by simp [hf]))
        · exact ⟨n, hn, hf⟩
      simp only [Throwing.visit, Throwing_ConstructNodeData_ok _ _ _ _ h0]
      exact Throwing_visitChildren_error cs nextid (nextid + 1) _ hcs
    · simp only [Throwing.visit, Throwing_ConstructNodeData_error _ _ _ _ h0]
theorem Throwing_visitChildren_error (cs : List CpuProfileNode) (id nextid : Int)
    (result : String) (h : ∃ n ∈ preorderList cs, allocationFails n) :
    Throwing.visitChildren Throwing.ConstructNodeData cs id nextid result
      = .error .bad_alloc := by
  match cs with
  | [] =>
    obtain ⟨n, hn, _⟩ := h
    simp [preorderList] at hn
  | c :: rest =>
    obtain ⟨n, hn, hf⟩ := h
    simp only [preorderList, List.mem_append] at hn
    cases hv : Throwing.visit Throwing.ConstructNodeData c id nextid result with
    | error e =>
      cases e
      simp only [Throwing.visitChildren, hv]
    | ok next =>
      rcases hn with hn | hn
      · rw [Throwing_visit_error c id nextid result ⟨n, hn, hf⟩] at hv
        exact absurd hv (by simp)
      · simp only [Throwing.visitChildren, hv]
        exact Throwing_visitChildren_error rest id _ _ ⟨n, hn, hf⟩
end

end NodeProf
